import Mathlib

/-!
Shallow embedding of the rustboy-core Game Boy emulator, together with
theorems settling the specification claims C1..C10.

Machine integers are modelled as `Nat` with explicit `% 2^w` wherever the
Rust code performs wrapping arithmetic.  Each definition mirrors one Rust
function of the repository; trait objects passed as `&dyn` parameters in
Rust become function-valued parameters here.
-/

namespace RustBoy

/-- `BitUtil::get_bit` for unsigned integers: `(self & (1 << bit)) != 0`. -/
def getBit (v bit : Nat) : Bool := v &&& (1 <<< bit) != 0

/-- `BitUtil::set_bit` for `u8`: `self | (1 << bit)`. -/
def setBit8 (v bit : Nat) : Nat := v ||| (1 <<< bit)

/-- `BitUtil::reset_bit` for `u8`: `self & !(1 << bit)` (8-bit complement). -/
def resetBit8 (v bit : Nat) : Nat := v &&& (0xFF ^^^ (1 <<< bit))

theorem getBit_eq_testBit (v bit : Nat) : getBit v bit = Nat.testBit v bit := by
  unfold getBit
  rw [Nat.shiftLeft_eq, one_mul, Nat.and_two_pow]
  cases h : Nat.testBit v bit <;> simp [h]

/-! ## Timer (`src/controllers/timer.rs`) -/

/-- State of `TimerControllerImpl`. -/
structure TimerState where
  clockPulseBit : Nat
  divider : Nat
  timerModulo : Nat
  timerController : Nat
  timerCounter : Nat
  enabled : Bool
  deriving Repr, DecidableEq

/-- `TimerControllerImpl::new`. -/
def TimerState.new : TimerState :=
  { clockPulseBit := 0, divider := 0, timerModulo := 0, timerController := 0,
    timerCounter := 0, enabled := false }

/-- `TimerControllerImpl::tick`.  Returns the new state together with a flag
recording whether `Interrupt::TimerOverflow` was requested on this tick. -/
def timerTick (s : TimerState) : TimerState × Bool :=
  let oldDiv := s.divider
  let newDiv := (s.divider + 4) % 65536
  if s.enabled then
    if getBit oldDiv s.clockPulseBit != getBit newDiv s.clockPulseBit then
      let timaOverflowed := s.timerCounter + 1 ≥ 256
      if timaOverflowed then
        ({ s with divider := newDiv, timerCounter := s.timerModulo }, true)
      else
        ({ s with divider := newDiv, timerCounter := (s.timerCounter + 1) % 256 }, false)
    else
      ({ s with divider := newDiv }, false)
  else
    ({ s with divider := newDiv }, false)

/-- The `MemoryAddress::TAC` arm of `TimerControllerImpl::write`. -/
def timerWriteTAC (s : TimerState) (value : Nat) : TimerState :=
  { s with
    enabled := getBit value 2
    clockPulseBit :=
      match value &&& 0x03 with
      | 0x00 => 10
      | 0x01 => 4
      | 0x02 => 6
      | 0x03 => 8
      | _ => 10
    timerController := value }

/-- The `MemoryAddress::TMA` arm of `TimerControllerImpl::write`. -/
def timerWriteTMA (s : TimerState) (value : Nat) : TimerState :=
  { s with timerModulo := value }

/-- Iterate `timerTick` for `n` M-cycles, counting TimerOverflow requests. -/
def timerRun (s : TimerState) : Nat → TimerState × Nat
  | 0 => (s, 0)
  | n + 1 =>
    let (s', reqs) := timerRun s n
    let (s'', req) := timerTick s'
    (s'', reqs + (if req then 1 else 0))

/-- Timer state after writing TMA := m and then TAC := 0x04 ||| c. -/
def timerInit (c m : Nat) : TimerState :=
  timerWriteTAC (timerWriteTMA TimerState.new m) (0x04 ||| c)

/-- Ticks between TIMA increments for TAC low bits `c` (= 2^(bit c) / 4). -/
def timerPeriod : Nat → Nat
  | 0 => 256
  | 1 => 4
  | 2 => 16
  | _ => 64

/-- TIMA value after `i` increments starting from 0, reloading from `m` on
each overflow past 0xFF: this is the behaviour the spec describes. -/
def timaRef (m : Nat) : Nat → Nat
  | 0 => 0
  | i + 1 => if timaRef m i = 255 then m % 256 else (timaRef m i + 1) % 256

/-- Number of TimerOverflow requests after `i` TIMA increments. -/
def ovfRef (m : Nat) : Nat → Nat
  | 0 => 0
  | i + 1 => ovfRef m i + (if timaRef m i = 255 then 1 else 0)

theorem testBit_succ_flip (n k : Nat) :
    (Nat.testBit n k != Nat.testBit (n + 1) k) = decide ((n + 1) % 2 ^ k = 0) := by
  by_cases hdvd : 2 ^ k ∣ n + 1
  · have h1 : (n + 1) / 2 ^ k = n / 2 ^ k + 1 := Nat.succ_div_of_dvd hdvd
    have h0 : (n + 1) % 2 ^ k = 0 := by
      obtain ⟨q, hqq⟩ := hdvd
      rw [hqq, Nat.mul_mod_right]
    rw [Nat.testBit_to_div_mod, Nat.testBit_to_div_mod, h1, h0]
    rcases Nat.mod_two_eq_zero_or_one (n / 2 ^ k) with h | h
    · have h2 : (n / 2 ^ k + 1) % 2 = 1 := by omega
      simp [h, h2]
    · have h2 : (n / 2 ^ k + 1) % 2 = 0 := by omega
      simp [h, h2]
  · have h1 : (n + 1) / 2 ^ k = n / 2 ^ k := by
      rw [Nat.succ_div, if_neg hdvd]; omega
    have h0 : (n + 1) % 2 ^ k ≠ 0 := fun h => hdvd (Nat.dvd_of_mod_eq_zero h)
    rw [Nat.testBit_to_div_mod, Nat.testBit_to_div_mod, h1]
    simp [h0]

theorem testBit_four_mul (n b : Nat) (hb2 : 2 ≤ b) :
    Nat.testBit (4 * n) b = Nat.testBit n (b - 2) := by
  have h : 4 * n = n <<< 2 := by rw [Nat.shiftLeft_eq]; ring
  rw [h, Nat.testBit_shiftLeft]
  simp [hb2]

/-- The divider's selected bit toggles between tick `n` and tick `n + 1`
exactly when `n + 1` is a multiple of `2 ^ (b - 2)` M-cycles. -/
theorem edge_cond (b n : Nat) (hb2 : 2 ≤ b) (hb16 : b < 16) :
    (getBit ((4 * n) % 65536) b != getBit ((4 * (n + 1)) % 65536) b)
      = decide ((n + 1) % 2 ^ (b - 2) = 0) := by
  have h65536 : (65536 : Nat) = 2 ^ 16 := by norm_num
  rw [getBit_eq_testBit, getBit_eq_testBit, h65536,
      Nat.testBit_mod_two_pow, Nat.testBit_mod_two_pow]
  simp only [hb16, decide_eq_true_eq, Bool.true_and, decide_True]
  rw [testBit_four_mul n b hb2, testBit_four_mul (n + 1) b hb2]
  exact testBit_succ_flip n (b - 2)

theorem timaRef_lt_of_ne (m i : Nat) (hi : i ≠ 0) : timaRef m i < 256 := by
  cases i with
  | zero => simp at hi
  | succ j =>
    rw [timaRef]
    split
    · exact Nat.mod_lt _ (by norm_num)
    · exact Nat.mod_lt _ (by norm_num)

theorem timerRun_general (b m tc n : Nat) (hb2 : 2 ≤ b) (hb16 : b < 16) (hm : m < 256) :
    timerRun { clockPulseBit := b, divider := 0, timerModulo := m,
               timerController := tc, timerCounter := 0, enabled := true } n
      = ({ clockPulseBit := b, divider := (4 * n) % 65536, timerModulo := m,
           timerController := tc, timerCounter := timaRef m (n / 2 ^ (b - 2)),
           enabled := true }, ovfRef m (n / 2 ^ (b - 2))) := by
  induction n with
  | zero => simp [timerRun, timaRef, ovfRef]
  | succ n ih =>
    rw [timerRun, ih]
    simp only [timerTick]
    have hdiv : ((4 * n) % 65536 + 4) % 65536 = (4 * (n + 1)) % 65536 := by
      rw [Nat.mod_add_mod]; ring_nf
    simp only [hdiv]
    rw [edge_cond b n hb2 hb16]
    have hq : (n + 1) / 2 ^ (b - 2) = n / 2 ^ (b - 2) + if 2 ^ (b - 2) ∣ n + 1 then 1 else 0 :=
      Nat.succ_div n (2 ^ (b - 2))
    by_cases hd : 2 ^ (b - 2) ∣ n + 1
    · have hmod : (n + 1) % 2 ^ (b - 2) = 0 := by
        obtain ⟨q, hqq⟩ := hd
        rw [hqq, Nat.mul_mod_right]
      rw [hq, if_pos hd]
      set i := n / 2 ^ (b - 2) with hi
      simp only [hmod, decide_True, if_true]
      by_cases hc : timaRef m i = 255
      · have hov : timaRef m i + 1 ≥ 256 := by omega
        rw [if_pos hov]
        have h1 : timaRef m (i + 1) = m := by rw [timaRef, if_pos hc, Nat.mod_eq_of_lt hm]
        have h2 : ovfRef m (i + 1) = ovfRef m i + 1 := by rw [ovfRef, if_pos hc]
        rw [h1, h2]
        simp
      · have hlt : timaRef m i < 256 := by
          by_cases hi0 : i = 0
          · rw [hi0]; simp [timaRef]
          · exact timaRef_lt_of_ne m i hi0
        have hov : ¬ (timaRef m i + 1 ≥ 256) := by omega
        rw [if_neg hov]
        have h1 : timaRef m (i + 1) = (timaRef m i + 1) % 256 := by rw [timaRef, if_neg hc]
        have h2 : ovfRef m (i + 1) = ovfRef m i := by rw [ovfRef, if_neg hc]; ring
        rw [h1, h2]
        simp
    · have hmod : (n + 1) % 2 ^ (b - 2) ≠ 0 := fun h => hd (Nat.dvd_of_mod_eq_zero h)
      rw [hq, if_neg hd, Nat.add_zero]
      simp [hmod]

/-- C1: starting from a divider of 0, with TAC written so the timer is enabled
and its low two bits select clock 00/01/10/11, TIMA after `n` ticks equals the
reference counter that increments exactly once per 256/4/16/64 ticks, reloading
from TMA on each overflow past 0xFF, and exactly one TimerOverflow interrupt
has been requested per overflow. -/
theorem timer_tima_frequency_and_overflow (c m n : Nat) (hc : c < 4) (hm : m < 256) :
    timerRun (timerInit c m) n =
      ({ timerInit c m with
          divider := (4 * n) % 65536
          timerCounter := timaRef m (n / timerPeriod c) },
       ovfRef m (n / timerPeriod c)) := by
  interval_cases c
  · simpa [timerInit, timerWriteTAC, timerWriteTMA, TimerState.new, timerPeriod, getBit]
      using timerRun_general 10 m 4 n (by norm_num) (by norm_num) hm
  · simpa [timerInit, timerWriteTAC, timerWriteTMA, TimerState.new, timerPeriod, getBit]
      using timerRun_general 4 m 5 n (by norm_num) (by norm_num) hm
  · simpa [timerInit, timerWriteTAC, timerWriteTMA, TimerState.new, timerPeriod, getBit]
      using timerRun_general 6 m 6 n (by norm_num) (by norm_num) hm
  · simpa [timerInit, timerWriteTAC, timerWriteTMA, TimerState.new, timerPeriod, getBit]
      using timerRun_general 8 m 7 n (by norm_num) (by norm_num) hm

/-- Witness for C1 at TAC low bits 01 (period 4), TMA = 0xAB, after 8 ticks. -/
theorem timer_tima_frequency_and_overflow_witness :
    (1 : Nat) < 4 ∧ (0xAB : Nat) < 256 ∧
      timerRun (timerInit 1 0xAB) 8 =
        ({ timerInit 1 0xAB with
            divider := (4 * 8) % 65536
            timerCounter := timaRef 0xAB (8 / timerPeriod 1) },
         ovfRef 0xAB (8 / timerPeriod 1)) :=
  ⟨by decide, by decide,
    timer_tima_frequency_and_overflow 1 0xAB 8 (by decide) (by decide)⟩

/-! ## CPU register file (`src/cpu/register.rs`) -/

/-- The twelve byte slots of the packed register file, in array order. -/
inductive ByteRegister where
  | A | F | B | C | D | E
  | UpperHL | LowerHL | UpperPC | LowerPC | UpperSP | LowerSP
  deriving Repr, DecidableEq

/-- The six 16-bit register pairs. -/
inductive WordRegister where
  | AF | BC | DE | HL | PC | SP
  deriving Repr, DecidableEq

/-- `WordRegister::get_upper_byte_register`. -/
def WordRegister.getUpperByteRegister : WordRegister → ByteRegister
  | .AF => .A
  | .BC => .B
  | .DE => .D
  | .HL => .UpperHL
  | .PC => .UpperPC
  | .SP => .UpperSP

/-- `WordRegister::get_lower_byte_register`. -/
def WordRegister.getLowerByteRegister : WordRegister → ByteRegister
  | .AF => .F
  | .BC => .C
  | .DE => .E
  | .HL => .LowerHL
  | .PC => .LowerPC
  | .SP => .LowerSP

/-- The `[u8; 12]` register file, one named field per array slot. -/
structure Registers where
  regA : Nat
  regF : Nat
  regB : Nat
  regC : Nat
  regD : Nat
  regE : Nat
  regUHL : Nat
  regLHL : Nat
  regUPC : Nat
  regLPC : Nat
  regUSP : Nat
  regLSP : Nat
  deriving Repr, DecidableEq

/-- `Registers::new` (A = 0x11, F = 0x80, rest zero). -/
def Registers.new : Registers :=
  { regA := 0x11, regF := 0x80, regB := 0, regC := 0, regD := 0, regE := 0,
    regUHL := 0, regLHL := 0, regUPC := 0, regLPC := 0, regUSP := 0, regLSP := 0 }

/-- `Registers::read_byte`. -/
def Registers.readByte (rs : Registers) : ByteRegister → Nat
  | .A => rs.regA
  | .F => rs.regF
  | .B => rs.regB
  | .C => rs.regC
  | .D => rs.regD
  | .E => rs.regE
  | .UpperHL => rs.regUHL
  | .LowerHL => rs.regLHL
  | .UpperPC => rs.regUPC
  | .LowerPC => rs.regLPC
  | .UpperSP => rs.regUSP
  | .LowerSP => rs.regLSP

/-- `Registers::write_byte`: stores the value verbatim in the slot. -/
def Registers.writeByte (rs : Registers) (reg : ByteRegister) (value : Nat) : Registers :=
  match reg with
  | .A => { rs with regA := value }
  | .F => { rs with regF := value }
  | .B => { rs with regB := value }
  | .C => { rs with regC := value }
  | .D => { rs with regD := value }
  | .E => { rs with regE := value }
  | .UpperHL => { rs with regUHL := value }
  | .LowerHL => { rs with regLHL := value }
  | .UpperPC => { rs with regUPC := value }
  | .LowerPC => { rs with regLPC := value }
  | .UpperSP => { rs with regUSP := value }
  | .LowerSP => { rs with regLSP := value }

/-- `Registers::write_byte_masked`: `(!mask & old) | (mask & value)` (u8). -/
def Registers.writeByteMasked (rs : Registers) (reg : ByteRegister) (value mask : Nat) :
    Registers :=
  rs.writeByte reg (((0xFF ^^^ mask) &&& rs.readByte reg) ||| (mask &&& value))

/-- `Registers::read_word`: big-endian pair read. -/
def Registers.readWord (rs : Registers) (reg : WordRegister) : Nat :=
  256 * rs.readByte reg.getUpperByteRegister + rs.readByte reg.getLowerByteRegister

/-- `Registers::write_word`: big-endian pair write of a u16 value. -/
def Registers.writeWord (rs : Registers) (reg : WordRegister) (value : Nat) : Registers :=
  (rs.writeByte reg.getUpperByteRegister ((value % 65536) / 256)).writeByte
    reg.getLowerByteRegister (value % 256)

/-- `ByteRegister::from_r_bits` (`None` models the panic arm). -/
def fromRBits : Nat → Option ByteRegister
  | 0b111 => some .A
  | 0b000 => some .B
  | 0b001 => some .C
  | 0b010 => some .D
  | 0b011 => some .E
  | 0b100 => some .UpperHL
  | 0b101 => some .LowerHL
  | _ => none

/-! ## CPU arithmetic micro-ops (`src/internal/cpu/cpu.rs`) -/

/-- `ByteLocation`: symbolic operand locations of the micro-ops. -/
inductive ByteLocation where
  | Value (v : Nat)
  | Register (r : ByteRegister)
  | ByteBuffer
  | LowerAddressBuffer
  | UpperAddressBuffer
  | LowerWordBuffer
  | UpperWordBuffer
  | MemoryReferencedByAddressBuffer
  | MemoryReferencedByRegister (r : WordRegister)
  | NextMemoryByte
  deriving Repr, DecidableEq

/-- Memory as seen through the `Memory` trait object. -/
def Mem := Nat → Nat

/-- Pointwise update used to model `memory.write`. -/
def memWrite (mem : Mem) (address value : Nat) : Mem :=
  fun x => if x = address then value else mem x

/-- The slice of `CPUImpl` state used by the arithmetic micro-ops: the
register file plus the operand scratch buffers of `CPUContext`. -/
structure CPUState where
  registers : Registers
  byteBuffer : Nat
  wordBuffer : Nat
  addressBuffer : Nat
  deriving Repr, DecidableEq

/-- `CPUImpl::read_next_byte`: reads `mem[PC]` and increments PC (u16). -/
def readNextByte (s : CPUState) (mem : Mem) : Nat × CPUState :=
  let address := s.registers.readWord .PC
  (mem address,
   { s with registers := s.registers.writeWord .PC ((address + 1) % 65536) })

/-- `CPUImpl::read_byte`. -/
def readByteLoc (s : CPUState) (mem : Mem) : ByteLocation → Nat × CPUState
  | .Value v => (v, s)
  | .Register r => (s.registers.readByte r, s)
  | .ByteBuffer => (s.byteBuffer, s)
  | .LowerAddressBuffer => (s.addressBuffer % 256, s)
  | .UpperAddressBuffer => ((s.addressBuffer >>> 8) % 256, s)
  | .LowerWordBuffer => (s.wordBuffer % 256, s)
  | .UpperWordBuffer => ((s.wordBuffer >>> 8) % 256, s)
  | .MemoryReferencedByAddressBuffer => (mem s.addressBuffer, s)
  | .MemoryReferencedByRegister r => (mem (s.registers.readWord r), s)
  | .NextMemoryByte => readNextByte s mem

/-- `CPUImpl::write_byte` (`None` models the two panic arms). -/
def writeByteLoc (s : CPUState) (mem : Mem) (loc : ByteLocation) (value : Nat) :
    Option (CPUState × Mem) :=
  match loc with
  | .Register r => some ({ s with registers := s.registers.writeByte r value }, mem)
  | .ByteBuffer => some ({ s with byteBuffer := value }, mem)
  | .LowerAddressBuffer =>
    some ({ s with addressBuffer := (s.addressBuffer &&& 0xFF00) + value }, mem)
  | .UpperAddressBuffer =>
    some ({ s with addressBuffer := (s.addressBuffer &&& 0x00FF) + (value <<< 8) }, mem)
  | .LowerWordBuffer =>
    some ({ s with wordBuffer := (s.wordBuffer &&& 0xFF00) + value }, mem)
  | .UpperWordBuffer =>
    some ({ s with wordBuffer := (s.wordBuffer &&& 0x00FF) + (value <<< 8) }, mem)
  | .MemoryReferencedByAddressBuffer => some (s, memWrite mem s.addressBuffer value)
  | .MemoryReferencedByRegister r =>
    some (s, memWrite mem (s.registers.readWord r) value)
  | .NextMemoryByte => none
  | .Value _ => none

/-- `ByteArithmeticParams`. -/
structure ByteArithmeticParams where
  first : ByteLocation
  second : ByteLocation
  destination : ByteLocation
  useCarry : Bool
  flagMask : Nat
  deriving Repr, DecidableEq

/-- `CPUImpl::add_bytes`. -/
def addBytes (p : ByteArithmeticParams) (s : CPUState) (mem : Mem) :
    Option (CPUState × Mem) :=
  let (firstValue, s1) := readByteLoc s mem p.first
  let (secondValue, s2) := readByteLoc s1 mem p.second
  let carry := if p.useCarry then
      (if getBit (s2.registers.readByte .F) 4 then 1 else 0) else 0
  let result := firstValue + secondValue + carry
  let carryResult := firstValue ^^^ secondValue ^^^ result
  let truncatedResult := result % 256
  let zero := truncatedResult == 0
  let s3 :=
    if p.flagMask != 0 then
      let flag := ((if zero then 1 else 0) <<< 7) |||
                  ((if getBit carryResult 4 then 1 else 0) <<< 5) |||
                  ((if getBit carryResult 8 then 1 else 0) <<< 4)
      { s2 with registers := s2.registers.writeByteMasked .F flag p.flagMask }
    else s2
  writeByteLoc s3 mem p.destination truncatedResult

/-- `CPUImpl::subtract_bytes`. -/
def subtractBytes (p : ByteArithmeticParams) (s : CPUState) (mem : Mem) :
    Option (CPUState × Mem) :=
  let (firstValue, s1) := readByteLoc s mem p.first
  let (secondValue, s2) := readByteLoc s1 mem p.second
  let borrow := if p.useCarry then
      (if getBit (s2.registers.readByte .F) 4 then 1 else 0) else 0
  let result := 0x100 + firstValue - secondValue - borrow
  let borrowResult := (0x100 + firstValue) ^^^ secondValue ^^^ result
  let truncatedResult := result % 256
  let zero := truncatedResult == 0
  let s3 :=
    if p.flagMask != 0 then
      let flag := ((if zero then 1 else 0) <<< 7) |||
                  (1 <<< 6) |||
                  ((if getBit borrowResult 4 then 1 else 0) <<< 5) |||
                  ((if getBit borrowResult 8 then 1 else 0) <<< 4)
      { s2 with registers := s2.registers.writeByteMasked .F flag p.flagMask }
    else s2
  writeByteLoc s3 mem p.destination truncatedResult

/-- `CPUImpl::decimal_adjust_reg_a`. -/
def decimalAdjustRegA (s : CPUState) (mem : Mem) : Option (CPUState × Mem) := do
  let a := s.registers.readByte .A
  let f := s.registers.readByte .F
  let n := getBit f 6
  let carry := getBit f 4
  let halfCarry := getBit f 5
  let (s', mem') ←
    if n then
      let lower := if halfCarry then 6 else 0
      let upper := if carry then 0x60 else 0
      subtractBytes
        { first := .Value a, second := .Value (upper ||| lower),
          destination := .Register .A, useCarry := false, flagMask := 0xB0 } s mem
    else
      let lower := if halfCarry || (a &&& 0x0F ≥ 0x0A) then 6 else 0
      let upper := if carry || (a > 0x99) then 0x60 else 0
      addBytes
        { first := .Value a, second := .Value (upper ||| lower),
          destination := .Register .A, useCarry := false, flagMask := 0xB0 } s mem
  if carry then
    pure ({ s' with registers := s'.registers.writeByteMasked .F 0x10 0x30 }, mem')
  else
    pure ({ s' with registers := s'.registers.writeByteMasked .F 0x00 0x20 }, mem')

/-! ## Decoder parameter tables (`src/cpu/decoder.rs`) -/

/-- Parameters scheduled by `InstructionDecoder::add_reg_to_reg_a_and_write_to_reg_a`. -/
def addRegToRegAParams (r : ByteRegister) (useCarry : Bool) : ByteArithmeticParams :=
  { first := .Register .A, second := .Register r, destination := .Register .A,
    useCarry := useCarry, flagMask := 0xF0 }

/-- Parameters scheduled by `InstructionDecoder::subtract_reg_from_reg_a_and_write_to_reg_a`. -/
def subtractRegFromRegAParams (r : ByteRegister) (useCarry : Bool) : ByteArithmeticParams :=
  { first := .Register .A, second := .Register r, destination := .Register .A,
    useCarry := useCarry, flagMask := 0xF0 }

/-- Parameters scheduled by `InstructionDecoder::compare_reg_with_reg_a`:
identical to SUB except that the result goes to the byte buffer. -/
def compareRegWithRegAParams (r : ByteRegister) : ByteArithmeticParams :=
  { first := .Register .A, second := .Register r, destination := .ByteBuffer,
    useCarry := false, flagMask := 0xF0 }

/-- C5: `CP a,b` (the SubtractBytes op scheduled by `compare_reg_with_reg_a`)
leaves register A unchanged and produces exactly the flag register F that
`SUB a,b` (scheduled by `subtract_reg_from_reg_a_and_write_to_reg_a`)
produces from the same starting state, for every starting state and every
operand register. -/
theorem cp_preserves_a_and_matches_sub_flags (s : CPUState) (mem : Mem) (r : ByteRegister) :
    ((subtractBytes (compareRegWithRegAParams r) s mem).map
        fun t => t.1.registers.readByte .A)
      = some (s.registers.readByte .A) ∧
    ((subtractBytes (compareRegWithRegAParams r) s mem).map
        fun t => t.1.registers.readByte .F)
      = ((subtractBytes (subtractRegFromRegAParams r false) s mem).map
          fun t => t.1.registers.readByte .F) := by
  constructor <;>
    simp [subtractBytes, compareRegWithRegAParams, subtractRegFromRegAParams, readByteLoc,
          writeByteLoc, Registers.writeByteMasked, Registers.writeByte, Registers.readByte]

/-- C8 counterexample: writing 0x0F into F through `Registers::write_byte`
stores the low nibble; the subsequent read does not return `0x0F & 0xF0`. -/
theorem write_byte_f_does_not_clear_low_nibble :
    ¬ ((Registers.new.writeByte .F 0x0F).readByte .F = 0x0F &&& 0xF0) := by decide

/-- C8 amended: `Registers::write_byte` stores the value into the F slot
verbatim, so a subsequent read of F yields exactly the written value (the
lower nibble is preserved, not cleared). -/
theorem write_byte_f_stores_verbatim (rs : Registers) (v : Nat) :
    (rs.writeByte .F v).readByte .F = v := rfl


def memZero : Mem := fun _ => 0

def cpuStateForAdd (a f b : Nat) : CPUState :=
  { registers := { Registers.new with regA := a, regF := f, regB := b },
    byteBuffer := 0, wordBuffer := 0, addressBuffer := 0 }

/-- `ADD A,B` followed by `DAA`: the add is the micro-op scheduled by the
decoder for `0x80` and the decimal adjust is `decimal_adjust_reg_a`. -/
def addThenDaa (a b f : Nat) (mem : Mem) : Option (CPUState × Mem) := do
  let (s1, m1) ← addBytes (addRegToRegAParams .B false) (cpuStateForAdd a f b) mem
  decimalAdjustRegA s1 m1

def projA (o : Option (CPUState × Mem)) : Option Nat :=
  o.map fun t => t.1.registers.readByte .A

def projCy (o : Option (CPUState × Mem)) : Option Bool :=
  o.map fun t => getBit (t.1.registers.readByte .F) 4

-- step1 characterization and DAA spec extraction

/-- The flag byte computed by `add_bytes` for operands `a`, `b` (no carry-in). -/
def flag1 (a b : Nat) : Nat :=
  ((if (a + b) % 256 == 0 then 1 else 0) <<< 7) |||
    ((if getBit (a ^^^ b ^^^ (a + b)) 4 then 1 else 0) <<< 5) |||
    ((if getBit (a ^^^ b ^^^ (a + b)) 8 then 1 else 0) <<< 4)

theorem addBytes_regB_char (a b f : Nat) (mem : Mem) :
    addBytes (addRegToRegAParams .B false) (cpuStateForAdd a f b) mem
      = some (CPUState.mk
          (Registers.mk ((a + b) % 256) ((15 &&& f) ||| (0xF0 &&& flag1 a b))
            b 0 0 0 0 0 0 0 0 0) 0 0 0, mem) := by
  simp [addBytes, addRegToRegAParams, readByteLoc, writeByteLoc, cpuStateForAdd,
        Registers.writeByteMasked, Registers.writeByte, Registers.readByte, Registers.new,
        flag1]

theorem getBit_or (x y k : Nat) : getBit (x ||| y) k = (getBit x k || getBit y k) := by
  rw [getBit_eq_testBit, getBit_eq_testBit, getBit_eq_testBit, Nat.testBit_lor]

theorem getBit_and (x y k : Nat) : getBit (x &&& y) k = (getBit x k && getBit y k) := by
  rw [getBit_eq_testBit, getBit_eq_testBit, getBit_eq_testBit, Nat.testBit_land]

theorem getBit_small (x k : Nat) (h : x < 2 ^ k) : getBit x k = false := by
  rw [getBit_eq_testBit]
  exact Nat.testBit_lt_two_pow h

theorem getBit_low_or (f u k : Nat) (hk : 4 ≤ k) :
    getBit ((15 &&& f) ||| u) k = getBit u k := by
  rw [getBit_or, getBit_small]
  · simp
  · calc 15 &&& f ≤ 15 := Nat.and_le_left
      _ < 2 ^ 4 := by norm_num
      _ ≤ 2 ^ k := Nat.pow_le_pow_right (by norm_num) hk

theorem getBit_ite_shl (P : Prop) [Decidable P] (j k : Nat) :
    getBit ((if P then 1 else 0) <<< j) k = (decide P && decide (j = k)) := by
  by_cases h : P
  · simp only [h, if_true, decide_eq_true_eq]
    rw [getBit_eq_testBit, Nat.one_shiftLeft, Nat.testBit_two_pow]
    simp [h]
  · simp only [h, if_false]
    rw [getBit_eq_testBit]
    simp [h, Nat.zero_shiftLeft]

theorem getBit207at4 : getBit 207 4 = false := by decide

theorem getBit79at4 : getBit 79 4 = false := by decide

theorem getBit176at4 : getBit 176 4 = true := by decide

theorem getBit64at4 : getBit 64 4 = false := by decide

theorem getBit48at4 : getBit 48 4 = true := by decide

theorem getBit16at4 : getBit 16 4 = true := by decide

theorem getBit223at4 : getBit 223 4 = true := by decide

/-- Register A after `decimal_adjust_reg_a`, as a function of the value of A
and the N/H/C flags read at entry (shape extracted from the code). -/
def daaSpecA (a1 : Nat) (n h c : Bool) : Nat :=
  if n then
    if c then (256 + a1 - (96 ||| if h then 6 else 0)) % 256
    else (256 + a1 - if h then 6 else 0) % 256
  else
    if c then (a1 + (96 ||| if h = true ∨ 10 ≤ a1 &&& 15 then 6 else 0)) % 256
    else (a1 + ((if 153 < a1 then 96 else 0) ||| if h = true ∨ 10 ≤ a1 &&& 15 then 6 else 0)) % 256

/-- Carry flag after `decimal_adjust_reg_a`, same conventions as `daaSpecA`. -/
def daaSpecCy (a1 : Nat) (n h c : Bool) : Bool :=
  if c then true
  else if n then
    getBit ((256 + a1) ^^^ (if h then 6 else 0) ^^^ (256 + a1 - if h then 6 else 0)) 8
  else
    getBit (a1 ^^^ ((if 153 < a1 then 96 else 0) ||| if h = true ∨ 10 ≤ a1 &&& 15 then 6 else 0) ^^^
      (a1 + ((if 153 < a1 then 96 else 0) ||| if h = true ∨ 10 ≤ a1 &&& 15 then 6 else 0))) 8

theorem daa_proj (a1 bb fv : Nat) (mem : Mem) :
    projA (decimalAdjustRegA
        (CPUState.mk (Registers.mk a1 fv bb 0 0 0 0 0 0 0 0 0) 0 0 0) mem)
      = some (daaSpecA a1 (getBit fv 6) (getBit fv 5) (getBit fv 4)) ∧
    projCy (decimalAdjustRegA
        (CPUState.mk (Registers.mk a1 fv bb 0 0 0 0 0 0 0 0 0) 0 0 0) mem)
      = some (daaSpecCy a1 (getBit fv 6) (getBit fv 5) (getBit fv 4)) := by
  constructor <;>
  · by_cases hn : getBit fv 6 = true <;> by_cases hc : getBit fv 4 = true <;>
      simp [decimalAdjustRegA, Registers.readByte, addBytes, subtractBytes, readByteLoc,
        writeByteLoc, Registers.writeByteMasked, Registers.writeByte, projA, projCy,
        daaSpecA, daaSpecCy, hn, hc, getBit_or, getBit_and, getBit_ite_shl,
        getBit207at4, getBit79at4, getBit176at4, getBit64at4, getBit48at4, getBit16at4,
        getBit223at4]

/-- BCD decode: two packed BCD digits to their decimal value. -/
def bcdDecode (x : Nat) : Nat := 10 * (x / 16) + x % 16

/-- BCD encode: a decimal value 0..99 to packed BCD. -/
def bcdEncode (d : Nat) : Nat := 16 * (d / 10) + d % 10

theorem bcd_enc_dec (a : Nat) (han : a % 16 ≤ 9) :
    bcdEncode (bcdDecode a) = a := by
  unfold bcdEncode bcdDecode
  omega

theorem bcd_dec_lt (a : Nat) (ha : a ≤ 0x99) (han : a % 16 ≤ 9) : bcdDecode a < 100 := by
  unfold bcdDecode
  omega

set_option maxRecDepth 100000 in
set_option maxHeartbeats 2000000 in
theorem c4_digits : ∀ x < 100, ∀ y < 100,
    daaSpecA ((bcdEncode x + bcdEncode y) % 256)
        (getBit (0xF0 &&& flag1 (bcdEncode x) (bcdEncode y)) 6)
        (getBit (0xF0 &&& flag1 (bcdEncode x) (bcdEncode y)) 5)
        (getBit (0xF0 &&& flag1 (bcdEncode x) (bcdEncode y)) 4)
      = bcdEncode ((x + y) % 100) ∧
    daaSpecCy ((bcdEncode x + bcdEncode y) % 256)
        (getBit (0xF0 &&& flag1 (bcdEncode x) (bcdEncode y)) 6)
        (getBit (0xF0 &&& flag1 (bcdEncode x) (bcdEncode y)) 5)
        (getBit (0xF0 &&& flag1 (bcdEncode x) (bcdEncode y)) 4)
      = decide (100 ≤ x + y) := by decide

theorem c4_core (a b : Nat) (ha : a ≤ 0x99) (hb : b ≤ 0x99)
    (han : a % 16 ≤ 9) (hbn : b % 16 ≤ 9) :
    daaSpecA ((a + b) % 256) (getBit (0xF0 &&& flag1 a b) 6)
        (getBit (0xF0 &&& flag1 a b) 5) (getBit (0xF0 &&& flag1 a b) 4)
      = bcdEncode ((bcdDecode a + bcdDecode b) % 100) ∧
    daaSpecCy ((a + b) % 256) (getBit (0xF0 &&& flag1 a b) 6)
        (getBit (0xF0 &&& flag1 a b) 5) (getBit (0xF0 &&& flag1 a b) 4)
      = decide (100 ≤ bcdDecode a + bcdDecode b) := by
  have h := c4_digits (bcdDecode a) (bcd_dec_lt a ha han) (bcdDecode b) (bcd_dec_lt b hb hbn)
  rw [bcd_enc_dec a han, bcd_enc_dec b hbn] at h
  exact h

/-- C4: for BCD operands `a` (in A) and `b` (in B), `ADD A,B` followed by
`DAA` leaves A holding the BCD encoding of `(decimal a + decimal b) % 100`,
with the carry flag set exactly when the decimal sum reaches 100.  The
initial flag byte `f` is arbitrary. -/
theorem add_then_daa_bcd (a b f : Nat) (mem : Mem) (ha : a ≤ 0x99) (hb : b ≤ 0x99)
    (han : a % 16 ≤ 9) (hbn : b % 16 ≤ 9) :
    projA (addThenDaa a b f mem) = some (bcdEncode ((bcdDecode a + bcdDecode b) % 100)) ∧
    projCy (addThenDaa a b f mem) = some (decide (100 ≤ bcdDecode a + bcdDecode b)) := by
  have hstep : addThenDaa a b f mem
      = decimalAdjustRegA (CPUState.mk (Registers.mk ((a + b) % 256)
          ((15 &&& f) ||| (0xF0 &&& flag1 a b)) b 0 0 0 0 0 0 0 0 0) 0 0 0) mem := by
    unfold addThenDaa
    rw [addBytes_regB_char]
    rfl
  have hp := daa_proj ((a + b) % 256) b ((15 &&& f) ||| (0xF0 &&& flag1 a b)) mem
  rw [getBit_low_or f _ 6 (by norm_num), getBit_low_or f _ 5 (by norm_num),
      getBit_low_or f _ 4 (by norm_num)] at hp
  have hcore := c4_core a b ha hb han hbn
  rw [hstep, hp.1, hp.2, hcore.1, hcore.2]
  exact ⟨rfl, rfl⟩

/-- Witness for C4 at A = 0x45, B = 0x38 (scenario 6 of the spec). -/
theorem add_then_daa_bcd_witness :
    ((0x45 : Nat) ≤ 0x99 ∧ (0x38 : Nat) ≤ 0x99 ∧
      (0x45 : Nat) % 16 ≤ 9 ∧ (0x38 : Nat) % 16 ≤ 9) ∧
    projA (addThenDaa 0x45 0x38 0xB0 memZero)
        = some (bcdEncode ((bcdDecode 0x45 + bcdDecode 0x38) % 100)) ∧
    projCy (addThenDaa 0x45 0x38 0xB0 memZero)
        = some (decide (100 ≤ bcdDecode 0x45 + bcdDecode 0x38)) :=
  ⟨⟨by decide, by decide, by decide, by decide⟩,
    add_then_daa_bcd 0x45 0x38 0xB0 memZero (by decide) (by decide) (by decide) (by decide)⟩


/-! ## Bit utilities: interleave and crumbs (`src/util/bit_util.rs`) -/

/-- The three spreading stages that `ByteUtil::interleave_with` applies to
each of its operands (u16 arithmetic). -/
def spreadU16 (v : Nat) : Nat :=
  let x1 := (v ||| ((v <<< 4) % 65536)) &&& 0x0F0F
  let x2 := (x1 ||| ((x1 <<< 2) % 65536)) &&& 0x3333
  (x2 ||| ((x2 <<< 1) % 65536)) &&& 0x5555

/-- `ByteUtil::interleave_with`: `x` spread from `self`, `y` spread from the
argument and shifted left once, then or-ed together. -/
def interleaveWith (b1 b2 : Nat) : Nat :=
  let x := spreadU16 b1
  let y := spreadU16 b2
  let y2 := (y <<< 1) % 65536
  x ||| y2

/-- `UnsignedCrumbIterator::next_back` iterated: crumbs of `value` from
`current_last_bit = 2 * k` downwards. -/
def crumbsRevAux (value : Nat) : Nat → List Nat
  | 0 => []
  | k + 1 => ((value >>> (2 * k)) &&& 0x3) :: crumbsRevAux value k

/-- `value.crumbs().rev()` collected, for a u16 (`BITS = 16`). -/
def crumbsRev16 (value : Nat) : List Nat := crumbsRevAux value 8

set_option maxRecDepth 10000 in
theorem spreadU16_le : ∀ v < 256, spreadU16 v ≤ 0x5555 := by decide

set_option maxRecDepth 10000 in
theorem spreadU16_testBit : ∀ v < 256, ∀ j < 16,
    Nat.testBit (spreadU16 v) j = (decide (j % 2 = 0) && Nat.testBit v (j / 2)) := by decide

theorem shr_and3 (v s : Nat) :
    (v >>> s) &&& 3 = (Nat.testBit v s).toNat + 2 * (Nat.testBit v (s + 1)).toNat := by
  have h3 : (3 : Nat) = 2 ^ 2 - 1 := rfl
  rw [h3, Nat.and_pow_two_sub_one_eq_mod, Nat.shiftRight_eq_div_pow,
      Nat.testBit_to_div_mod, Nat.testBit_to_div_mod]
  have hdd : v / 2 ^ (s + 1) = v / 2 ^ s / 2 := by
    rw [Nat.pow_succ, Nat.div_div_eq_div_mul]
  rw [hdd]
  rcases Nat.mod_two_eq_zero_or_one (v / 2 ^ s) with h | h <;>
    rcases Nat.mod_two_eq_zero_or_one (v / 2 ^ s / 2) with h2 | h2 <;>
    simp [h, h2] <;> omega

theorem interleave_testBit (b1 b2 j : Nat) (h1 : b1 < 256) (h2 : b2 < 256) (hj : j < 16) :
    Nat.testBit (interleaveWith b1 b2) j
      = if j % 2 = 0 then Nat.testBit b1 (j / 2) else Nat.testBit b2 (j / 2) := by
  have hb2 : spreadU16 b2 ≤ 0x5555 := spreadU16_le b2 h2
  have hmod : (spreadU16 b2 <<< 1) % 65536 = spreadU16 b2 <<< 1 := by
    apply Nat.mod_eq_of_lt
    rw [Nat.shiftLeft_eq]
    omega
  simp only [interleaveWith]
  rw [hmod, Nat.testBit_lor, Nat.testBit_shiftLeft]
  rcases Nat.mod_two_eq_zero_or_one j with hp | hp
  · rw [if_pos hp, spreadU16_testBit b1 h1 j hj, hp]
    simp only [decide_True, Bool.true_and]
    rcases Nat.eq_zero_or_pos j with hz | hpos
    · subst hz
      simp
    · have hge : j ≥ 1 := hpos
      have hjm : (j - 1) % 2 = 1 := by omega
      rw [spreadU16_testBit b2 h2 (j - 1) (by omega), hjm]
      simp [hge]
  · rw [if_neg (by omega), spreadU16_testBit b1 h1 j hj, hp]
    have hge : j ≥ 1 := by omega
    have hjm : (j - 1) % 2 = 0 := by omega
    have hjd : (j - 1) / 2 = j / 2 := by omega
    rw [spreadU16_testBit b2 h2 (j - 1) (by omega), hjm, hjd]
    simp [hge]

theorem interleave_crumb (b1 b2 k : Nat) (h1 : b1 < 256) (h2 : b2 < 256) (hk : k < 8) :
    ((interleaveWith b1 b2) >>> (2 * k)) &&& 3
      = (getBit b1 k).toNat + 2 * (getBit b2 k).toNat := by
  rw [shr_and3, interleave_testBit b1 b2 (2 * k) h1 h2 (by omega),
      interleave_testBit b1 b2 (2 * k + 1) h1 h2 (by omega)]
  have he : (2 * k) % 2 = 0 := by omega
  have ho : (2 * k + 1) % 2 = 1 := by omega
  have hde : 2 * k / 2 = k := by omega
  have hdo : (2 * k + 1) / 2 = k := by omega
  rw [if_pos he, if_neg (by omega), hde, hdo, getBit_eq_testBit, getBit_eq_testBit]

/-- C6: the eight crumbs of `interleave(b1, b2).crumbs().rev()` are the
standard 2bpp decoding: the k-th crumb (k = 0 leftmost) has low bit
`bit (7 - k)` of `b1` and high bit `bit (7 - k)` of `b2`. -/
theorem interleave_crumbs_rev_2bpp (b1 b2 : Nat) (h1 : b1 < 256) (h2 : b2 < 256) :
    crumbsRev16 (interleaveWith b1 b2)
      = (List.range 8).map (fun k =>
          (getBit b1 (7 - k)).toNat + 2 * (getBit b2 (7 - k)).toNat) := by
  have hr : List.range 8 = [0, 1, 2, 3, 4, 5, 6, 7] := rfl
  rw [hr]
  simp only [crumbsRev16, crumbsRevAux, List.map, List.cons.injEq, and_true]
  exact ⟨by simpa using interleave_crumb b1 b2 7 h1 h2 (by omega),
    by simpa using interleave_crumb b1 b2 6 h1 h2 (by omega),
    by simpa using interleave_crumb b1 b2 5 h1 h2 (by omega),
    by simpa using interleave_crumb b1 b2 4 h1 h2 (by omega),
    by simpa using interleave_crumb b1 b2 3 h1 h2 (by omega),
    by simpa using interleave_crumb b1 b2 2 h1 h2 (by omega),
    by simpa using interleave_crumb b1 b2 1 h1 h2 (by omega),
    by simpa using interleave_crumb b1 b2 0 h1 h2 (by omega)⟩

/-- Witness for C6 at the repository's own test vector (0x3C, 0x7E). -/
theorem interleave_crumbs_rev_2bpp_witness :
    (0x3C : Nat) < 256 ∧ (0x7E : Nat) < 256 ∧
      crumbsRev16 (interleaveWith 0x3C 0x7E)
        = (List.range 8).map (fun k =>
            (getBit 0x3C (7 - k)).toNat + 2 * (getBit 0x7E (7 - k)).toNat) :=
  ⟨by decide, by decide, interleave_crumbs_rev_2bpp 0x3C 0x7E (by decide) (by decide)⟩


/-! ## CRAM (`src/internal/memory/cram.rs`) -/

/-- State of `CRAMImpl`; the two 64-byte palette arrays are functions from
byte address to byte. -/
structure CRAMState where
  monochromeBackgroundPalette : Nat
  monochromeObjectPalette0 : Nat
  monochromeObjectPalette1 : Nat
  backgroundPaletteIndex : Nat
  backgroundPalettes : Nat → Nat
  objectPaletteIndex : Nat
  objectPalettes : Nat → Nat

/-- `CRAMImpl::new`. -/
def CRAMState.new : CRAMState :=
  { monochromeBackgroundPalette := 0xFC
    monochromeObjectPalette0 := 0xE4
    monochromeObjectPalette1 := 0xE4
    backgroundPaletteIndex := 0
    backgroundPalettes := fun _ => 0
    objectPaletteIndex := 0
    objectPalettes := fun _ => 0 }

/-- The `MemoryAddress::BCPS` arm of `CRAMImpl::write`. -/
def cramWriteBCPS (s : CRAMState) (value : Nat) : CRAMState :=
  { s with backgroundPaletteIndex := value &&& 0xBF }

/-- The `MemoryAddress::OCPS` arm of `CRAMImpl::write`. -/
def cramWriteOCPS (s : CRAMState) (value : Nat) : CRAMState :=
  { s with objectPaletteIndex := value &&& 0xBF }

/-- The `MemoryAddress::BCPD` arm of `CRAMImpl::write`; also reports the
palette byte address that received the value. -/
def cramWriteBCPD (s : CRAMState) (value : Nat) : CRAMState × Nat :=
  let addr := s.backgroundPaletteIndex &&& 0x3F
  let s1 := { s with backgroundPalettes :=
    fun i => if i = addr then value else s.backgroundPalettes i }
  if getBit s.backgroundPaletteIndex 7 then
    ({ s1 with backgroundPaletteIndex := resetBit8 (s.backgroundPaletteIndex + 1) 6 }, addr)
  else
    (s1, addr)

/-- The `MemoryAddress::OCPD` arm of `CRAMImpl::write`. -/
def cramWriteOCPD (s : CRAMState) (value : Nat) : CRAMState × Nat :=
  let addr := s.objectPaletteIndex &&& 0x3F
  let s1 := { s with objectPalettes :=
    fun i => if i = addr then value else s.objectPalettes i }
  if getBit s.objectPaletteIndex 7 then
    ({ s1 with objectPaletteIndex := resetBit8 (s.objectPaletteIndex + 1) 6 }, addr)
  else
    (s1, addr)

/-- Sequence of BCPD data writes, collecting the stored byte addresses. -/
def cramWriteBCPDList (s : CRAMState) : List Nat → CRAMState × List Nat
  | [] => (s, [])
  | v :: vs =>
    let (s1, a) := cramWriteBCPD s v
    let (s2, rest) := cramWriteBCPDList s1 vs
    (s2, a :: rest)

/-- Sequence of OCPD data writes, collecting the stored byte addresses. -/
def cramWriteOCPDList (s : CRAMState) : List Nat → CRAMState × List Nat
  | [] => (s, [])
  | v :: vs =>
    let (s1, a) := cramWriteOCPD s v
    let (s2, rest) := cramWriteOCPDList s1 vs
    (s2, a :: rest)

set_option maxRecDepth 4000 in
theorem cram_index_bcps : ∀ v < 256, getBit v 7 = true → v &&& 0xBF = 0x80 + v % 64 := by
  decide

theorem cram_index_bit7 : ∀ r < 64, getBit (0x80 + r) 7 = true := by decide

theorem cram_index_addr : ∀ r < 64, (0x80 + r) &&& 0x3F = r := by decide

theorem cram_index_step : ∀ r < 64, resetBit8 (0x80 + r + 1) 6 = 0x80 + (r + 1) % 64 := by
  decide

theorem cramWriteBCPDList_char (vs : List Nat) : ∀ (s : CRAMState) (r : Nat), r < 64 →
    s.backgroundPaletteIndex = 0x80 + r →
    (cramWriteBCPDList s vs).2 = (List.range vs.length).map (fun j => (r + j) % 64) ∧
    (cramWriteBCPDList s vs).1.backgroundPaletteIndex = 0x80 + (r + vs.length) % 64 := by
  induction vs with
  | nil =>
    intro s r hr hidx
    simp [cramWriteBCPDList, hidx, Nat.mod_eq_of_lt hr]
  | cons v vs ih =>
    intro s r hr hidx
    have hstep : cramWriteBCPD s v
        = ({ s with
              backgroundPalettes := fun i => if i = r then v else s.backgroundPalettes i
              backgroundPaletteIndex := 0x80 + (r + 1) % 64 }, r) := by
      simp only [cramWriteBCPD, hidx, cram_index_bit7 r hr, cram_index_addr r hr, if_true]
      rw [cram_index_step r hr]
    have ihs := ih ({ s with
        backgroundPalettes := fun i => if i = r then v else s.backgroundPalettes i
        backgroundPaletteIndex := 0x80 + (r + 1) % 64 })
      ((r + 1) % 64) (Nat.mod_lt _ (by norm_num)) rfl
    rw [cramWriteBCPDList, hstep]
    simp only [ihs.1, ihs.2]
    constructor
    · rw [List.length_cons, List.range_succ_eq_map, List.map_cons, List.map_map]
      congr 1
      · omega
      · apply List.map_congr_left
        intro j _
        simp only [Function.comp]
        omega
    · rw [List.length_cons]
      omega

theorem cramWriteOCPDList_char (vs : List Nat) : ∀ (s : CRAMState) (r : Nat), r < 64 →
    s.objectPaletteIndex = 0x80 + r →
    (cramWriteOCPDList s vs).2 = (List.range vs.length).map (fun j => (r + j) % 64) ∧
    (cramWriteOCPDList s vs).1.objectPaletteIndex = 0x80 + (r + vs.length) % 64 := by
  induction vs with
  | nil =>
    intro s r hr hidx
    simp [cramWriteOCPDList, hidx, Nat.mod_eq_of_lt hr]
  | cons v vs ih =>
    intro s r hr hidx
    have hstep : cramWriteOCPD s v
        = ({ s with
              objectPalettes := fun i => if i = r then v else s.objectPalettes i
              objectPaletteIndex := 0x80 + (r + 1) % 64 }, r) := by
      simp only [cramWriteOCPD, hidx, cram_index_bit7 r hr, cram_index_addr r hr, if_true]
      rw [cram_index_step r hr]
    have ihs := ih ({ s with
        objectPalettes := fun i => if i = r then v else s.objectPalettes i
        objectPaletteIndex := 0x80 + (r + 1) % 64 })
      ((r + 1) % 64) (Nat.mod_lt _ (by norm_num)) rfl
    rw [cramWriteOCPDList, hstep]
    simp only [ihs.1, ihs.2]
    constructor
    · rw [List.length_cons, List.range_succ_eq_map, List.map_cons, List.map_map]
      congr 1
      · omega
      · apply List.map_congr_left
        intro j _
        simp only [Function.comp]
        omega
    · rw [List.length_cons]
      omega

/-- C7: after writing a value with bit 7 set to BCPS (resp. OCPS), a
sequence of N data writes to BCPD (resp. OCPD) stores to N consecutive
palette byte addresses (mod 64), and the index register afterwards holds
bit 7 set, bit 6 clear, and low bits advanced by N with wraparound. -/
theorem cram_autoincrement_consecutive (v : Nat) (hv : v < 256) (h7 : getBit v 7 = true)
    (vs : List Nat) (s : CRAMState) :
    ((cramWriteBCPDList (cramWriteBCPS s v) vs).2
        = (List.range vs.length).map (fun j => (v + j) % 64) ∧
      (cramWriteBCPDList (cramWriteBCPS s v) vs).1.backgroundPaletteIndex
        = 0x80 + (v + vs.length) % 64) ∧
    ((cramWriteOCPDList (cramWriteOCPS s v) vs).2
        = (List.range vs.length).map (fun j => (v + j) % 64) ∧
      (cramWriteOCPDList (cramWriteOCPS s v) vs).1.objectPaletteIndex
        = 0x80 + (v + vs.length) % 64) := by
  have hidxB : (cramWriteBCPS s v).backgroundPaletteIndex = 0x80 + v % 64 := by
    simp only [cramWriteBCPS]
    exact cram_index_bcps v hv h7
  have hidxO : (cramWriteOCPS s v).objectPaletteIndex = 0x80 + v % 64 := by
    simp only [cramWriteOCPS]
    exact cram_index_bcps v hv h7
  have hB := cramWriteBCPDList_char vs (cramWriteBCPS s v) (v % 64)
    (Nat.mod_lt _ (by norm_num)) hidxB
  have hO := cramWriteOCPDList_char vs (cramWriteOCPS s v) (v % 64)
    (Nat.mod_lt _ (by norm_num)) hidxO
  refine ⟨⟨?_, ?_⟩, ⟨?_, ?_⟩⟩
  · rw [hB.1]
    apply List.map_congr_left
    intro j _
    omega
  · rw [hB.2]
    omega
  · rw [hO.1]
    apply List.map_congr_left
    intro j _
    omega
  · rw [hO.2]
    omega

/-- Witness for C7 at index write 0xBE and three data writes: the bytes land
at addresses 62, 63, 0 (wrapping), and the index ends at 0x81. -/
theorem cram_autoincrement_consecutive_witness :
    ((0xBE : Nat) < 256 ∧ getBit 0xBE 7 = true) ∧
    ((cramWriteBCPDList (cramWriteBCPS CRAMState.new 0xBE) [0xD5, 0x2B, 0x77]).2
        = (List.range 3).map (fun j => (0xBE + j) % 64) ∧
      (cramWriteBCPDList (cramWriteBCPS CRAMState.new 0xBE) [0xD5, 0x2B, 0x77]).1.backgroundPaletteIndex
        = 0x80 + (0xBE + 3) % 64) ∧
    ((cramWriteOCPDList (cramWriteOCPS CRAMState.new 0xBE) [0xD5, 0x2B, 0x77]).2
        = (List.range 3).map (fun j => (0xBE + j) % 64) ∧
      (cramWriteOCPDList (cramWriteOCPS CRAMState.new 0xBE) [0xD5, 0x2B, 0x77]).1.objectPaletteIndex
        = 0x80 + (0xBE + 3) % 64) :=
  ⟨⟨by decide, by decide⟩,
    cram_autoincrement_consecutive 0xBE (by decide) (by decide) [0xD5, 0x2B, 0x77]
      CRAMState.new⟩


/-! ## MBC3 (`src/internal/memory/mbc3.rs`) -/

/-- The banking slice of `MBC3` state: the ROM bytes are a function from
address to byte; the RTC is not involved in the banking claims. -/
structure MBC3State where
  ramEnabled : Bool
  romBankAddress : Nat
  ramBankAddress : Nat
  rom : Nat → Nat

/-- The `0x2000..=0x3FFF` arm of `MBC3::write`: select ROM bank, coercing
bank 0 to 1.  The value is stored without any mask. -/
def mbc3WriteRomBankSelect (s : MBC3State) (value : Nat) : MBC3State :=
  let bank := value
  if bank = 0 then
    { s with romBankAddress := 1 }
  else
    { s with romBankAddress := bank }

/-- The `0x4000..=0x7FFF` arm of `MBC3::read`: serve the byte from the
selected ROM bank. -/
def mbc3ReadUpperRom (s : MBC3State) (address : Nat) : Nat :=
  s.rom ((address &&& 0x3FFF) ||| (s.romBankAddress <<< 14))

/-- Fresh `MBC3::new` banking state over the given ROM image. -/
def MBC3State.new (rom : Nat → Nat) : MBC3State :=
  { ramEnabled := false, romBankAddress := 0x01, ramBankAddress := 0x00, rom := rom }

/-- C9 counterexample: writing 0x80 to the ROM-bank select of a fresh MBC3
selects bank 128, which exceeds 127 — the claim that the selected bank never
exceeds 127 is false. -/
theorem mbc3_bank_exceeds_127 :
    ¬ ((mbc3WriteRomBankSelect (MBC3State.new fun _ => 0) 0x80).romBankAddress ≤ 127) := by
  decide

/-- C9 amended: a write of `v` (a u8) to `0x2000..=0x3FFF` selects ROM bank
`v`, with bank 0 coerced to 1 — so the bank ranges over 1..=255, not 1..=127 —
and subsequent reads of `0x4000..=0x7FFF` are served from that bank. -/
theorem mbc3_rom_bank_select (s : MBC3State) (v : Nat) (hv : v < 256)
    (address : Nat) (ha1 : 0x4000 ≤ address) (ha2 : address ≤ 0x7FFF) :
    (mbc3WriteRomBankSelect s v).romBankAddress = (if v = 0 then 1 else v) ∧
    1 ≤ (mbc3WriteRomBankSelect s v).romBankAddress ∧
    (mbc3WriteRomBankSelect s v).romBankAddress ≤ 255 ∧
    mbc3ReadUpperRom (mbc3WriteRomBankSelect s v) address
      = s.rom ((address &&& 0x3FFF) ||| ((if v = 0 then 1 else v) <<< 14)) := by
  by_cases hz : v = 0 <;>
    simp [mbc3WriteRomBankSelect, mbc3ReadUpperRom, MBC3State.new, hz] <;>
    omega

/-- Witness for the amended C9 at v = 0x80, address 0x5ABC. -/
theorem mbc3_rom_bank_select_witness :
    ((0x80 : Nat) < 256 ∧ (0x4000 : Nat) ≤ 0x5ABC ∧ (0x5ABC : Nat) ≤ 0x7FFF) ∧
    ((mbc3WriteRomBankSelect (MBC3State.new fun a => a % 251) 0x80).romBankAddress
        = (if (0x80 : Nat) = 0 then 1 else 0x80) ∧
      1 ≤ (mbc3WriteRomBankSelect (MBC3State.new fun a => a % 251) 0x80).romBankAddress ∧
      (mbc3WriteRomBankSelect (MBC3State.new fun a => a % 251) 0x80).romBankAddress ≤ 255 ∧
      mbc3ReadUpperRom (mbc3WriteRomBankSelect (MBC3State.new fun a => a % 251) 0x80) 0x5ABC
        = (MBC3State.new fun a => a % 251).rom
            ((0x5ABC &&& 0x3FFF) ||| ((if (0x80 : Nat) = 0 then 1 else 0x80) <<< 14))) :=
  ⟨⟨by decide, by decide, by decide⟩,
    mbc3_rom_bank_select (MBC3State.new fun a => a % 251) 0x80 (by decide) 0x5ABC
      (by decide) (by decide)⟩


/-! ## DMA controller (`src/internal/controllers/dma.rs`) -/

/-- `LCDMode` (`src/internal/controllers/lcd.rs`). -/
inductive LCDMode where
  | HBlank | VBlank | Mode2 | Mode3
  deriving Repr, DecidableEq

/-- `DMATransferType`. -/
inductive DMATransferType where
  | Inactive | Legacy | GeneralPurpose | HBlank
  deriving Repr, DecidableEq

/-- `DMATransfer`. -/
structure DMATransfer where
  transferType : DMATransferType
  sourceAddress : Nat
  destinationAddress : Nat
  bytesTransferred : Nat
  bytesToTransfer : Nat
  deriving Repr, DecidableEq

/-- `DMATransfer::inactive`. -/
def DMATransfer.inactive : DMATransfer :=
  { transferType := .Inactive, sourceAddress := 0, destinationAddress := 0,
    bytesTransferred := 0, bytesToTransfer := 0 }

/-- State of `DMAControllerImpl`; the two `Toggle` latches are plain Bools. -/
structure DMAState where
  dma : Nat
  highSourceAddress : Nat
  lowSourceAddress : Nat
  highDestinationAddress : Nat
  lowDestinationAddress : Nat
  hdma5 : Nat
  activeTransfer : DMATransfer
  cancelRequested : Bool
  doubleSpeedToggle : Bool
  deriving Repr, DecidableEq

/-- `DMAControllerImpl::new`. -/
def DMAState.new : DMAState :=
  { dma := 0, highSourceAddress := 0, lowSourceAddress := 0,
    highDestinationAddress := 0, lowDestinationAddress := 0, hdma5 := 0xFF,
    activeTransfer := DMATransfer.inactive, cancelRequested := false,
    doubleSpeedToggle := false }

/-- Result of one DMA tick: controller state, memory, and the CPU enabled
flag (the `&mut dyn CPU` collaborator). -/
structure DMATickResult where
  state : DMAState
  mem : Mem
  cpuEnabled : Bool

/-- `DMAControllerImpl::handle_legacy_transfer`. -/
def handleLegacyTransfer (s : DMAState) (mem : Mem) (cpu : Bool) : DMATickResult :=
  let bytesTransferred := s.activeTransfer.bytesTransferred
  let currentByte := mem ((s.activeTransfer.sourceAddress + bytesTransferred) % 65536)
  let mem1 := memWrite mem ((0xFE00 + bytesTransferred) % 65536) currentByte
  let bytesTransferred := bytesTransferred + 1
  let s1 := { s with activeTransfer :=
    { s.activeTransfer with bytesTransferred := bytesTransferred } }
  if bytesTransferred = 160 then
    { state := { s1 with activeTransfer :=
        { s1.activeTransfer with transferType := .Inactive } }
      mem := mem1
      cpuEnabled := cpu }
  else
    { state := s1, mem := mem1, cpuEnabled := cpu }

/-- `DMAControllerImpl::handle_general_purpose_transfer`. -/
def handleGeneralPurposeTransfer (s : DMAState) (mem : Mem) (cpu : Bool)
    (doubleSpeed : Bool) : DMATickResult :=
  if doubleSpeed && s.doubleSpeedToggle then
    { state := { s with doubleSpeedToggle := !s.doubleSpeedToggle }
      mem := mem
      cpuEnabled := cpu }
  else
    let s := if doubleSpeed then { s with doubleSpeedToggle := !s.doubleSpeedToggle } else s
    let bytesTransferred := s.activeTransfer.bytesTransferred
    let currentByte := mem ((s.activeTransfer.sourceAddress + bytesTransferred) % 65536)
    let mem1 := memWrite mem
      ((s.activeTransfer.destinationAddress + bytesTransferred) % 65536) currentByte
    let bytesTransferred := bytesTransferred + 1
    let s1 := { s with activeTransfer :=
      { s.activeTransfer with bytesTransferred := bytesTransferred } }
    if bytesTransferred = s.activeTransfer.bytesToTransfer then
      { state := { s1 with
          activeTransfer := { s1.activeTransfer with transferType := .Inactive }
          hdma5 := 0xFF }
        mem := mem1
        cpuEnabled := true }
    else
      { state := s1, mem := mem1, cpuEnabled := false }

/-- `DMAControllerImpl::should_cancel_hblank_transfer`. -/
def shouldCancelHblankTransfer (s : DMAState) (cpu : Bool) : Bool :=
  cpu && s.cancelRequested

/-- `DMAControllerImpl::handle_hblank_transfer`. -/
def handleHblankTransfer (s : DMAState) (mem : Mem) (cpu : Bool) (mode : LCDMode)
    (doubleSpeed : Bool) : DMATickResult :=
  if doubleSpeed && s.doubleSpeedToggle then
    { state := { s with doubleSpeedToggle := !s.doubleSpeedToggle }
      mem := mem
      cpuEnabled := cpu }
  else
    let s := if doubleSpeed then { s with doubleSpeedToggle := !s.doubleSpeedToggle } else s
    let bytesTransferred := s.activeTransfer.bytesTransferred
    if mode = .HBlank then
      if shouldCancelHblankTransfer s cpu then
        { state := { s with
            cancelRequested := false
            activeTransfer := { s.activeTransfer with transferType := .Inactive }
            hdma5 := setBit8 s.hdma5 7 }
          mem := mem
          cpuEnabled := cpu }
      else
        let currentByte := mem ((s.activeTransfer.sourceAddress + bytesTransferred) % 65536)
        let mem1 := memWrite mem
          ((s.activeTransfer.destinationAddress + bytesTransferred) % 65536) currentByte
        let bytesTransferred := bytesTransferred + 1
        let s1 := { s with activeTransfer :=
          { s.activeTransfer with bytesTransferred := bytesTransferred } }
        if bytesTransferred = s.activeTransfer.bytesToTransfer then
          { state := { s1 with
              activeTransfer := { s1.activeTransfer with transferType := .Inactive }
              cancelRequested := false
              hdma5 := 0xFF }
            mem := mem1
            cpuEnabled := true }
        else
          let linesToTransfer := s.activeTransfer.bytesToTransfer / 16
          let linesTransferred := bytesTransferred / 16
          let linesRemaining := linesToTransfer - linesTransferred
          { state := { s1 with hdma5 := (linesRemaining - 1) % 256 }
            mem := mem1
            cpuEnabled := false }
    else
      { state := s, mem := mem, cpuEnabled := true }

/-- `DMAControllerImpl::tick`. -/
def dmaTick (s : DMAState) (mem : Mem) (cpu : Bool) (mode : LCDMode)
    (doubleSpeed : Bool) : DMATickResult :=
  match s.activeTransfer.transferType with
  | .Inactive => { state := s, mem := mem, cpuEnabled := true }
  | .Legacy => handleLegacyTransfer s mem cpu
  | .GeneralPurpose => handleGeneralPurposeTransfer s mem cpu doubleSpeed
  | .HBlank => handleHblankTransfer s mem cpu mode doubleSpeed

/-- The `MemoryAddress::HDMA5` arm of `DMAControllerImpl::write`. -/
def dmaWriteHDMA5 (s : DMAState) (value : Nat) : DMAState :=
  match s.activeTransfer.transferType with
  | .Inactive =>
    let sourceAddress := ((s.highSourceAddress <<< 8) ||| s.lowSourceAddress) % 65536
    let destinationAddress :=
      ((s.highDestinationAddress <<< 8) ||| s.lowDestinationAddress) % 65536
    let bytesToTransfer := ((value &&& 0x7F) + 1) * 16
    let transferType :=
      if getBit value 7 then DMATransferType.HBlank else DMATransferType.GeneralPurpose
    { s with
        activeTransfer :=
          { transferType := transferType
            sourceAddress := sourceAddress
            destinationAddress := destinationAddress
            bytesToTransfer := bytesToTransfer
            bytesTransferred := 0 }
        hdma5 := 0x00 }
  | .HBlank =>
    if !getBit value 7 then { s with cancelRequested := true } else s
  | _ => s

theorem getBit_setBit8 (x k : Nat) : getBit (setBit8 x k) k = true := by
  rw [setBit8, getBit_or]
  have h : getBit (1 <<< k) k = true := by
    rw [getBit_eq_testBit, Nat.one_shiftLeft, Nat.testBit_two_pow]
    simp
  simp [h]

/-- C3: with an H-Blank DMA transfer active, writing FF55 with bit 7 clear
only latches a cancellation request; ticks in HBlank with the CPU disabled
still copy one byte each; a tick outside HBlank re-enables the CPU and keeps
the transfer; and the first HBlank tick that observes the CPU enabled makes
the transfer inactive and sets bit 7 of FF55. -/
theorem hblank_dma_cancellation (s : DMAState) (mem : Mem)
    (hact : s.activeTransfer.transferType = .HBlank) :
    (∀ v, getBit v 7 = false →
      dmaWriteHDMA5 s v = { s with cancelRequested := true }) ∧
    (s.cancelRequested = true →
      (∀ mode, mode ≠ LCDMode.HBlank → ∀ cpu,
        dmaTick s mem cpu mode false
          = { state := s, mem := mem, cpuEnabled := true }) ∧
      (s.activeTransfer.bytesTransferred + 1 ≠ s.activeTransfer.bytesToTransfer →
        dmaTick s mem false .HBlank false
          = { state := { s with
                activeTransfer := { s.activeTransfer with
                  bytesTransferred := s.activeTransfer.bytesTransferred + 1 }
                hdma5 := (s.activeTransfer.bytesToTransfer / 16
                  - (s.activeTransfer.bytesTransferred + 1) / 16 - 1) % 256 }
              mem := memWrite mem
                ((s.activeTransfer.destinationAddress
                  + s.activeTransfer.bytesTransferred) % 65536)
                (mem ((s.activeTransfer.sourceAddress
                  + s.activeTransfer.bytesTransferred) % 65536))
              cpuEnabled := false }) ∧
      (dmaTick s mem true .HBlank false
        = { state := { s with
              cancelRequested := false
              activeTransfer := { s.activeTransfer with transferType := .Inactive }
              hdma5 := setBit8 s.hdma5 7 }
            mem := mem
            cpuEnabled := true } ∧
        getBit (setBit8 s.hdma5 7) 7 = true)) := by
  refine ⟨?_, ?_⟩
  · intro v hv
    simp [dmaWriteHDMA5, hact, hv]
  · intro hcr
    refine ⟨?_, ?_, ?_, ?_⟩
    · intro mode hmode cpu
      simp [dmaTick, hact, handleHblankTransfer, hmode]
    · intro hbt
      simp [dmaTick, hact, handleHblankTransfer, shouldCancelHblankTransfer, hbt]
    · simp [dmaTick, hact, handleHblankTransfer, shouldCancelHblankTransfer, hcr]
    · exact getBit_setBit8 s.hdma5 7

/-- Concrete mid-transfer H-Blank DMA state: 7-line (112-byte) transfer from
0xC000 to 0x8120, one byte already copied, cancellation requested. -/
def dmaStateW : DMAState :=
  { dma := 0, highSourceAddress := 0xC0, lowSourceAddress := 0,
    highDestinationAddress := 0x81, lowDestinationAddress := 0x20, hdma5 := 0x06,
    activeTransfer :=
      { transferType := .HBlank, sourceAddress := 0xC000, destinationAddress := 0x8120,
        bytesTransferred := 1, bytesToTransfer := 112 },
    cancelRequested := true, doubleSpeedToggle := false }

/-- Witness for C3 at `dmaStateW`. -/
theorem hblank_dma_cancellation_witness :
    dmaStateW.activeTransfer.transferType = .HBlank ∧
    ((∀ v, getBit v 7 = false →
      dmaWriteHDMA5 dmaStateW v = { dmaStateW with cancelRequested := true }) ∧
    (dmaStateW.cancelRequested = true →
      (∀ mode, mode ≠ LCDMode.HBlank → ∀ cpu,
        dmaTick dmaStateW memZero cpu mode false
          = { state := dmaStateW, mem := memZero, cpuEnabled := true }) ∧
      (dmaStateW.activeTransfer.bytesTransferred + 1
          ≠ dmaStateW.activeTransfer.bytesToTransfer →
        dmaTick dmaStateW memZero false .HBlank false
          = { state := { dmaStateW with
                activeTransfer := { dmaStateW.activeTransfer with
                  bytesTransferred := dmaStateW.activeTransfer.bytesTransferred + 1 }
                hdma5 := (dmaStateW.activeTransfer.bytesToTransfer / 16
                  - (dmaStateW.activeTransfer.bytesTransferred + 1) / 16 - 1) % 256 }
              mem := memWrite memZero
                ((dmaStateW.activeTransfer.destinationAddress
                  + dmaStateW.activeTransfer.bytesTransferred) % 65536)
                (memZero ((dmaStateW.activeTransfer.sourceAddress
                  + dmaStateW.activeTransfer.bytesTransferred) % 65536))
              cpuEnabled := false }) ∧
      (dmaTick dmaStateW memZero true .HBlank false
        = { state := { dmaStateW with
              cancelRequested := false
              activeTransfer :=
                { dmaStateW.activeTransfer with transferType := .Inactive }
              hdma5 := setBit8 dmaStateW.hdma5 7 }
            mem := memZero
            cpuEnabled := true } ∧
        getBit (setBit8 dmaStateW.hdma5 7) 7 = true))) :=
  ⟨by decide, hblank_dma_cancellation dmaStateW memZero (by decide)⟩

/-! ## LCD controller (`src/internal/controllers/lcd.rs`) -/

/-- `Interrupt` (`src/internal/cpu/interrupts.rs`). -/
inductive Interrupt where
  | VerticalBlank | Stat | TimerOverflow | SerialIOComplete | ButtonPressed
  deriving Repr, DecidableEq

/-- `RenderTarget` (`src/renderer/renderer.rs`). -/
inductive RenderTarget where
  | Main | TileAtlas | ObjectAtlas
  deriving Repr, DecidableEq

/-- `ColorReference` (`src/internal/memory/cram.rs`). -/
structure ColorReference where
  colorIndex : Nat
  paletteIndex : Nat
  foreground : Bool
  deriving Repr, DecidableEq

/-- `ObjectReference` (`src/internal/memory/oam.rs`). -/
structure ObjectReference where
  objectIndex : Nat
  useBottomTile : Bool
  deriving Repr, DecidableEq

/-- `OAMObject` (attributes kept as the raw byte). -/
structure OAMObject where
  lcdY : Nat
  lcdX : Nat
  tileIndex : Nat
  attributes : Nat
  deriving Repr, DecidableEq

/-- `TileMapIndex` (`src/memory/vram.rs`). -/
inductive TileMapIndex where
  | TileMap1 | TileMap2
  deriving Repr, DecidableEq

/-- `TileAddressingMode`. -/
inductive TileAddressingMode where
  | Mode8000 | Mode8800
  deriving Repr, DecidableEq

/-- `Point`. -/
structure Point where
  x : Nat
  y : Nat
  deriving Repr, DecidableEq

/-- `BackgroundParams`. -/
structure BackgroundParams where
  tileMapIndex : TileMapIndex
  tileAddressingMode : TileAddressingMode
  line : Nat
  viewportPosition : Point
  deriving Repr, DecidableEq

/-- `WindowParams`. -/
structure WindowParams where
  tileMapIndex : TileMapIndex
  tileAddressingMode : TileAddressingMode
  line : Nat
  windowPosition : Point
  deriving Repr, DecidableEq

/-- `ObjectParams`. -/
structure ObjectParams where
  object : OAMObject
  row : Nat
  monochrome : Bool
  deriving Repr, DecidableEq

/-- One `renderer.draw_pixel(x, y, z, color, target)` call; colors are
abstract payloads (`Nat`). -/
structure Draw where
  x : Nat
  y : Nat
  z : Nat
  color : Nat
  target : RenderTarget
  deriving Repr, DecidableEq

/-- `Color::white()` .. `Color::black()` as abstract payloads. -/
def Color.white : Nat := 0

def Color.lightGrey : Nat := 1

def Color.darkGrey : Nat := 2

def Color.black : Nat := 3

/-- The `&dyn VRAM`, `&dyn CRAM`, `&dyn OAM` and `&mut dyn Renderer`
collaborators of `LCDControllerImpl::tick`, as functions. -/
structure LCDEnv where
  vramBackgroundLineColors : BackgroundParams → List ColorReference
  vramWindowLineColors : WindowParams → List ColorReference
  vramObjectLineColors : ObjectParams → List ColorReference
  vramTileAtlasLineColors : Nat → List Nat
  cramMonochromeBackgroundColor : ColorReference → Nat
  cramBackgroundColor : ColorReference → Nat
  cramMonochromeObjectColor : ColorReference → Nat
  cramObjectColor : ColorReference → Nat
  oamGetObjectReferenceIfIntersects : Nat → Nat → Bool → Option ObjectReference
  oamGetObject : ObjectReference → Bool → OAMObject
  rendererTargetEnabled : RenderTarget → Bool

/-- `LCDC` accessors (`LCDC(u8)`). -/
def lcdcBgPriority (v : Nat) : Bool := getBit v 0

def lcdcObjEnabled (v : Nat) : Bool := getBit v 1

def lcdcUse8x16Tiles (v : Nat) : Bool := getBit v 2

def lcdcBgTileMapIndex (v : Nat) : TileMapIndex :=
  if getBit v 3 then .TileMap2 else .TileMap1

def lcdcWindowTileMapIndex (v : Nat) : TileMapIndex :=
  if getBit v 6 then .TileMap2 else .TileMap1

def lcdcTileAddressingMode (v : Nat) : TileAddressingMode :=
  if getBit v 4 then .Mode8000 else .Mode8800

def lcdcWindowingEnabled (v : Nat) : Bool := getBit v 5

def lcdcLcdEnabled (v : Nat) : Bool := getBit v 7

/-- `Stat` accessors (`Stat(u8)`). -/
def statLycInterruptEnabled (v : Nat) : Bool := getBit v 6

def statInterruptEnabledForMode (v : Nat) : LCDMode → Bool
  | .HBlank => getBit v 3
  | .VBlank => getBit v 4
  | .Mode2 => getBit v 5
  | .Mode3 => false

def statLycEqualsLine (v : Nat) : Bool := getBit v 2

def statSetLycEqualsLine (v : Nat) (lycEqualsLine : Bool) : Nat :=
  if lycEqualsLine then setBit8 v 2 else resetBit8 v 2

def statSetMode (v : Nat) (mode : LCDMode) : Nat :=
  let bits : Nat :=
    match mode with
    | .HBlank => 0x00
    | .VBlank => 0x01
    | .Mode2 => 0x02
    | .Mode3 => 0x03
  (v &&& 0xFC) ||| bits

/-- State of `LCDControllerImpl`. -/
structure LCDState where
  currentObjectIndex : Nat
  intersectingObjectReferences : List ObjectReference
  dot : Nat
  line : Nat
  lineRendered : Bool
  column : Nat
  mode : LCDMode
  lcdc : Nat
  stat : Nat
  interruptLine : Bool
  opri : Nat
  scy : Nat
  scx : Nat
  lyc : Nat
  wy : Nat
  wx : Nat
  deriving Repr, DecidableEq

/-- `LCDControllerImpl::new`. -/
def LCDState.new : LCDState :=
  { currentObjectIndex := 0, intersectingObjectReferences := [], dot := 0, line := 0,
    lineRendered := false, column := 0, mode := .Mode2, lcdc := 0x91, stat := 0x02,
    interruptLine := false, opri := 0, scy := 0, scx := 0, lyc := 0, wy := 0, wx := 0 }

/-- `LCDControllerImpl::find_intersecting_objects`. -/
def findIntersectingObjects (env : LCDEnv) (s : LCDState) : LCDState :=
  let use8x16 := lcdcUse8x16Tiles s.lcdc
  if s.intersectingObjectReferences.length < 10 ∧ s.column % 4 = 0 then
    let objectIndex := (s.column / 2) % 256
    let s1 :=
      match env.oamGetObjectReferenceIfIntersects objectIndex s.line use8x16 with
      | some r =>
        { s with intersectingObjectReferences := s.intersectingObjectReferences ++ [r] }
      | none => s
    if s1.intersectingObjectReferences.length < 10 then
      match env.oamGetObjectReferenceIfIntersects (objectIndex + 1) s.line use8x16 with
      | some r =>
        { s1 with
            intersectingObjectReferences := s1.intersectingObjectReferences ++ [r] }
      | none => s1
    else s1
  else s

/-- `LCDControllerImpl::draw_background_line`. -/
def drawBackgroundLine (env : LCDEnv) (s : LCDState) : List Draw :=
  if s.opri = 1 ∧ ¬ lcdcBgPriority s.lcdc then []
  else
    let colorReferences := env.vramBackgroundLineColors
      { tileMapIndex := lcdcBgTileMapIndex s.lcdc
        tileAddressingMode := lcdcTileAddressingMode s.lcdc
        line := s.line
        viewportPosition := { x := s.scx, y := s.scy } }
    (colorReferences.map (fun colorRef =>
        (colorRef, if s.opri = 1 then env.cramMonochromeBackgroundColor colorRef
                   else env.cramBackgroundColor colorRef))).enum.map
      (fun p =>
        let backgroundDrawDepth :=
          if p.2.1.colorIndex = 0 ∨ ¬ lcdcBgPriority s.lcdc then 0
          else if p.2.1.foreground then 6
          else 3
        { x := p.1, y := s.line, z := backgroundDrawDepth, color := p.2.2,
          target := RenderTarget.Main })

/-- `LCDControllerImpl::should_draw_window_line`. -/
def shouldDrawWindowLine (s : LCDState) : Bool :=
  (s.opri = 0 ∨ lcdcBgPriority s.lcdc) ∧ s.wy ≤ s.line ∧ s.wy ≤ 143 ∧ s.wx ≤ 166

/-- `LCDControllerImpl::draw_window_line`. -/
def drawWindowLine (env : LCDEnv) (s : LCDState) : List Draw :=
  if lcdcWindowingEnabled s.lcdc ∧ shouldDrawWindowLine s then
    let colorReferences := env.vramWindowLineColors
      { tileMapIndex := lcdcWindowTileMapIndex s.lcdc
        tileAddressingMode := lcdcTileAddressingMode s.lcdc
        line := s.line
        windowPosition := { x := s.wx, y := s.wy } }
    ((colorReferences.map (fun colorRef =>
        if s.opri = 1 then env.cramMonochromeBackgroundColor colorRef
        else env.cramBackgroundColor colorRef)).enum.drop
      (if s.wx < 7 then 7 - s.wx else 0)).map
      (fun p =>
        { x := p.1 + s.wx - 7, y := s.line, z := 0xFF, color := p.2,
          target := RenderTarget.Main })
  else []

/-- Stable insertion sort by ascending `lcd_x` (`objects.sort_by`). -/
def insertByLcdX (o : OAMObject) : List OAMObject → List OAMObject
  | [] => [o]
  | b :: t => if b.lcdX ≤ o.lcdX then b :: insertByLcdX o t else o :: b :: t

def sortByLcdX : List OAMObject → List OAMObject
  | [] => []
  | o :: t => insertByLcdX o (sortByLcdX t)

/-- `LCDControllerImpl::draw_obj_line`. -/
def drawObjLine (env : LCDEnv) (s : LCDState) : List Draw :=
  if ¬ lcdcObjEnabled s.lcdc then []
  else
    let objects := s.intersectingObjectReferences.map
      (fun r => env.oamGetObject r (lcdcUse8x16Tiles s.lcdc))
    let objects := if s.opri = 1 then sortByLcdX objects else objects
    (objects.filter (fun o => o.lcdX ≠ 0 ∧ o.lcdX ≤ 168)).flatMap
      (fun o =>
        let params : ObjectParams :=
          { object := o, row := (s.line + 16 + 256 - o.lcdY) % 256,
            monochrome := s.opri = 1 }
        let colors := env.vramObjectLineColors params
        (((colors.map (fun colorRef =>
            (colorRef, if s.opri = 1 then env.cramMonochromeObjectColor colorRef
                       else env.cramObjectColor colorRef))).enum.drop
          (if o.lcdX < 8 then 8 - o.lcdX else 0)).take
          (if o.lcdX > 160 then 168 - o.lcdX else 8)).map
          (fun p =>
            let objDrawDepth := if p.2.1.foreground then 5 else 2
            { x := o.lcdX + p.1 - 8, y := s.line, z := objDrawDepth, color := p.2.2,
              target := RenderTarget.Main }))

/-- `LCDControllerImpl::draw_obj_atlas_line`. -/
def drawObjAtlasLine (env : LCDEnv) (s : LCDState) : List Draw :=
  if s.line < 32 then
    let row := s.line % 8
    let objectRange :=
      if s.line < 8 ∨ (s.line < 16 ∧ lcdcUse8x16Tiles s.lcdc) then List.range' 0 20
      else if s.line < 24 ∨ (s.line < 32 ∧ lcdcUse8x16Tiles s.lcdc) then List.range' 20 20
      else []
    objectRange.flatMap
      (fun objectIndex =>
        let object := env.oamGetObject
          { objectIndex := objectIndex, useBottomTile := s.line % 16 > 7 }
          (lcdcUse8x16Tiles s.lcdc)
        let params : ObjectParams := { object := object, row := row, monochrome := s.opri = 1 }
        let columnOffset := (objectIndex % 20) * 8
        let colors := env.vramObjectLineColors params
        ((colors.map (fun colorRef =>
            if s.opri = 1 then env.cramMonochromeObjectColor colorRef
            else env.cramObjectColor colorRef)).enum).map
          (fun p =>
            { x := columnOffset + p.1, y := s.line, z := 5, color := p.2,
              target := RenderTarget.ObjectAtlas }))
  else []

/-- `LCDControllerImpl::draw_tile_atlas_line`. -/
def drawTileAtlasLine (env : LCDEnv) (s : LCDState) : List Draw :=
  if s.line = 0 then
    (List.range 192).flatMap
      (fun line =>
        ((env.vramTileAtlasLineColors line).map (fun colorRef =>
            match colorRef with
            | 0 => Color.white
            | 1 => Color.lightGrey
            | 2 => Color.darkGrey
            | _ => Color.black)).enum.map
          (fun p =>
            { x := p.1, y := line, z := 5, color := p.2,
              target := RenderTarget.TileAtlas }))
  else []

/-- `LCDControllerImpl::draw_line`. -/
def drawLine (env : LCDEnv) (s : LCDState) : List Draw :=
  (if env.rendererTargetEnabled .Main then
    drawBackgroundLine env s ++ drawWindowLine env s ++ drawObjLine env s
  else []) ++
  (if env.rendererTargetEnabled .ObjectAtlas then drawObjAtlasLine env s else []) ++
  (if env.rendererTargetEnabled .TileAtlas then drawTileAtlasLine env s else [])

/-- `LCDControllerImpl::update_mode`. -/
def updateMode (s : LCDState) : LCDState :=
  let mode :=
    if s.line ≥ 144 then LCDMode.VBlank
    else if s.column ≤ 79 then LCDMode.Mode2
    else if s.column ≤ 247 then LCDMode.Mode3
    else LCDMode.HBlank
  { s with mode := mode, stat := statSetMode s.stat mode }

/-- `LCDControllerImpl::maybe_request_interrupt`: returns the updated state
and whether a Stat interrupt was requested. -/
def maybeRequestInterrupt (s : LCDState) : LCDState × Bool :=
  let newInterruptLine :=
    statInterruptEnabledForMode s.stat s.mode ||
      (statLycEqualsLine s.stat && statLycInterruptEnabled s.stat)
  ({ s with interruptLine := newInterruptLine }, newInterruptLine && !s.interruptLine)

/-- Result of one `LCDControllerImpl::tick`. -/
structure LCDTickResult where
  state : LCDState
  draws : List Draw
  interrupts : List Interrupt
  flushes : Nat

/-- The per-mode dispatch at the end of `LCDControllerImpl::tick` (the
`match self.mode` block), with the already-collected Stat requests. -/
def lcdTickDispatch (env : LCDEnv) (s : LCDState) (statInterrupts : List Interrupt) :
    LCDTickResult :=
  match s.mode with
  | .HBlank =>
    let s := if s.column = 248 then
        { s with intersectingObjectReferences := [], currentObjectIndex := 0 }
      else s
    { state := s, draws := [], interrupts := statInterrupts, flushes := 0 }
  | .VBlank =>
    if s.column = 0 ∧ s.line = 144 then
      { state := s, draws := [],
        interrupts := statInterrupts ++ [Interrupt.VerticalBlank], flushes := 1 }
    else
      { state := s, draws := [], interrupts := statInterrupts, flushes := 0 }
  | .Mode2 =>
    let s := { s with lineRendered := false }
    { state := findIntersectingObjects env s, draws := [],
      interrupts := statInterrupts, flushes := 0 }
  | .Mode3 =>
    if ¬ s.lineRendered then
      { state := { s with lineRendered := true }, draws := drawLine env s,
        interrupts := statInterrupts, flushes := 0 }
    else
      { state := s, draws := [], interrupts := statInterrupts, flushes := 0 }

/-- `LCDControllerImpl::tick`. -/
def lcdTick (env : LCDEnv) (s : LCDState) (doubleSpeed : Bool) : LCDTickResult :=
  let numberOfDotsForTick := if doubleSpeed then 2 else 4
  let s := { s with dot := (s.dot + numberOfDotsForTick) % 70224 }
  if ¬ lcdcLcdEnabled s.lcdc then
    { state := s, draws := [], interrupts := [], flushes := 0 }
  else
    let s := { s with line := (s.dot / 456) % 256, column := s.dot % 456 }
    let s := { s with stat := statSetLycEqualsLine s.stat (s.line == s.lyc) }
    let s := updateMode s
    let (s, statRequested) := maybeRequestInterrupt s
    lcdTickDispatch env s (if statRequested then [Interrupt.Stat] else [])

theorem findIntersectingObjects_preserves (env : LCDEnv) (s : LCDState) :
    (findIntersectingObjects env s).interruptLine = s.interruptLine ∧
    (findIntersectingObjects env s).mode = s.mode := by
  unfold findIntersectingObjects
  by_cases h0 : s.intersectingObjectReferences.length < 10 ∧ s.column % 4 = 0
  · simp only [h0, if_true]
    cases h1 : env.oamGetObjectReferenceIfIntersects (s.column / 2 % 256) s.line
        (lcdcUse8x16Tiles s.lcdc) with
    | none =>
      simp only
      split
      · cases h2 : env.oamGetObjectReferenceIfIntersects (s.column / 2 % 256 + 1) s.line
          (lcdcUse8x16Tiles s.lcdc) with
        | none => simp
        | some r2 => split <;> simp
      · simp
    | some r =>
      simp only
      split
      · cases h2 : env.oamGetObjectReferenceIfIntersects (s.column / 2 % 256 + 1) s.line
          (lcdcUse8x16Tiles s.lcdc) with
        | none => simp
        | some r2 => split <;> simp
      · simp
  · simp [h0]

theorem lcdTickDispatch_stat_mem (env : LCDEnv) (s : LCDState) (ints : List Interrupt) :
    (Interrupt.Stat ∈ (lcdTickDispatch env s ints).interrupts)
      ↔ Interrupt.Stat ∈ ints := by
  cases hm : s.mode <;> simp only [lcdTickDispatch, hm] <;> split <;> simp

theorem lcdTickDispatch_interruptLine (env : LCDEnv) (s : LCDState) (ints : List Interrupt) :
    (lcdTickDispatch env s ints).state.interruptLine = s.interruptLine := by
  cases hm : s.mode <;> simp only [lcdTickDispatch, hm] <;>
    first
      | (split <;> simp [(findIntersectingObjects_preserves env _).1])
      | simp [(findIntersectingObjects_preserves env _).1]

theorem lcdTickDispatch_mode (env : LCDEnv) (s : LCDState) (ints : List Interrupt) :
    (lcdTickDispatch env s ints).state.mode = s.mode := by
  cases hm : s.mode <;> simp only [lcdTickDispatch, hm] <;>
    first
      | (split <;> simp [hm, (findIntersectingObjects_preserves env _).2])
      | simp [hm, (findIntersectingObjects_preserves env _).2]

theorem stat_mem_ite (nl old : Bool) :
    (Interrupt.Stat ∈ (if nl && !old then [Interrupt.Stat] else []))
      ↔ (nl = true ∧ old = false) := by
  cases nl <;> cases old <;> simp

theorem getBit_4_ne2 : ∀ k < 8, k ≠ 2 → getBit 4 k = false := by decide

theorem getBit_251_ne2 : ∀ k < 8, k ≠ 2 → getBit 0xFB k = true := by decide

theorem getBit_252_ge2 : ∀ k < 8, 2 ≤ k → getBit 0xFC k = true := by decide

theorem getBit_or2 (x y k : Nat) : getBit (x ||| y) k = (getBit x k || getBit y k) := by
  unfold getBit
  rw [Nat.shiftLeft_eq, one_mul, Nat.and_two_pow, Nat.and_two_pow, Nat.and_two_pow,
      Nat.testBit_lor]
  cases hx : Nat.testBit x k <;> cases hy : Nat.testBit y k <;> simp [hx, hy]

theorem getBit_and2 (x y k : Nat) : getBit (x &&& y) k = (getBit x k && getBit y k) := by
  unfold getBit
  rw [Nat.shiftLeft_eq, one_mul, Nat.and_two_pow, Nat.and_two_pow, Nat.and_two_pow,
      Nat.testBit_land]
  cases hx : Nat.testBit x k <;> cases hy : Nat.testBit y k <;> simp [hx, hy]

theorem getBit_small2 (x k : Nat) (h : x < 2 ^ k) : getBit x k = false := by
  unfold getBit
  rw [Nat.shiftLeft_eq, one_mul, Nat.and_two_pow, Nat.testBit_lt_two_pow h]
  simp

theorem getBit_statSetLycEqualsLine (v : Nat) (b : Bool) (k : Nat)
    (hk2 : k ≠ 2) (hk8 : k < 8) :
    getBit (statSetLycEqualsLine v b) k = getBit v k := by
  cases b <;>
    simp [statSetLycEqualsLine, setBit8, resetBit8, getBit_or2, getBit_and2,
      getBit_4_ne2 k hk8 hk2, getBit_251_ne2 k hk8 hk2]

theorem getBit_statSetMode (v : Nat) (mode : LCDMode) (k : Nat)
    (hk2 : 2 ≤ k) (hk8 : k < 8) :
    getBit (statSetMode v mode) k = getBit v k := by
  have hsmall : ∀ m < 4, getBit m k = false := fun m hm =>
    getBit_small2 m k (lt_of_lt_of_le hm (by
      calc (4 : Nat) = 2 ^ 2 := by norm_num
        _ ≤ 2 ^ k := Nat.pow_le_pow_right (by norm_num) hk2))
  cases mode <;>
    simp [statSetMode, getBit_or2, getBit_and2, getBit_252_ge2 k hk8 hk2,
      hsmall 0 (by norm_num), hsmall 1 (by norm_num), hsmall 2 (by norm_num),
      hsmall 3 (by norm_num)]

theorem statline_true (v : Nat) (mode : LCDMode)
    (h3 : getBit v 3 = true) (h5 : getBit v 5 = true)
    (hm : mode = LCDMode.HBlank ∨ mode = LCDMode.Mode2) :
    (statInterruptEnabledForMode v mode
      || (statLycEqualsLine v && statLycInterruptEnabled v)) = true := by
  rcases hm with hm | hm <;> subst hm <;> simp [statInterruptEnabledForMode, h3, h5]

/-- C2: on a PPU tick with the LCD enabled, a Stat interrupt is requested iff
the newly computed interrupt line is true while the previous tick's line was
false (STAT blocking); and with the HBlank (bit 3) and Mode2 (bit 5) STAT
enables both set and the line already high, a tick that lands in HBlank or
Mode2 raises no further Stat request and keeps the line high. -/
theorem stat_interrupt_rising_edge (env : LCDEnv) (s : LCDState) (ds : Bool)
    (hen : lcdcLcdEnabled s.lcdc = true) :
    ((Interrupt.Stat ∈ (lcdTick env s ds).interrupts)
      ↔ ((lcdTick env s ds).state.interruptLine = true ∧ s.interruptLine = false)) ∧
    (getBit s.stat 3 = true → getBit s.stat 5 = true → s.interruptLine = true →
      ((lcdTick env s ds).state.mode = LCDMode.HBlank ∨
        (lcdTick env s ds).state.mode = LCDMode.Mode2) →
      (Interrupt.Stat ∉ (lcdTick env s ds).interrupts ∧
        (lcdTick env s ds).state.interruptLine = true)) := by
  constructor
  · simp only [lcdTick, hen, not_true, if_false, maybeRequestInterrupt, updateMode]
    rw [lcdTickDispatch_stat_mem, lcdTickDispatch_interruptLine]
    exact stat_mem_ite _ _
  · intro h3 h5 hold hmode
    simp only [lcdTick, hen, not_true, if_false, maybeRequestInterrupt, updateMode]
      at hmode ⊢
    rw [lcdTickDispatch_mode] at hmode
    constructor
    · rw [lcdTickDispatch_stat_mem]
      simp [hold]
    · rw [lcdTickDispatch_interruptLine]
      refine statline_true _ _ ?_ ?_ hmode
      · rw [getBit_statSetMode _ _ 3 (by norm_num) (by norm_num),
            getBit_statSetLycEqualsLine _ _ 3 (by norm_num) (by norm_num)]
        exact h3
      · rw [getBit_statSetMode _ _ 5 (by norm_num) (by norm_num),
            getBit_statSetLycEqualsLine _ _ 5 (by norm_num) (by norm_num)]
        exact h5

theorem drawWindowLine_nil (env : LCDEnv) (s : LCDState) (hwy : 143 < s.wy) :
    drawWindowLine env s = [] := by
  have h : ¬ (s.wy ≤ 143) := by omega
  simp [drawWindowLine, shouldDrawWindowLine, h]

theorem drawBackgroundLine_z (env : LCDEnv) (s : LCDState) :
    ∀ d ∈ drawBackgroundLine env s, d.z ≠ 0xFF := by
  intro d hd
  simp only [drawBackgroundLine] at hd
  split at hd
  · simp at hd
  · rw [List.mem_map] at hd
    obtain ⟨p, _, rfl⟩ := hd
    simp only
    split_ifs <;> norm_num

theorem drawObjLine_z (env : LCDEnv) (s : LCDState) :
    ∀ d ∈ drawObjLine env s, d.z ≠ 0xFF := by
  intro d hd
  simp only [drawObjLine] at hd
  split at hd
  · simp at hd
  · rw [List.mem_flatMap] at hd
    obtain ⟨o, _, hdo⟩ := hd
    rw [List.mem_map] at hdo
    obtain ⟨p, _, rfl⟩ := hdo
    simp only
    split_ifs <;> norm_num

theorem drawObjAtlasLine_target (env : LCDEnv) (s : LCDState) :
    ∀ d ∈ drawObjAtlasLine env s, d.target ≠ RenderTarget.Main := by
  intro d hd
  simp only [drawObjAtlasLine] at hd
  split at hd
  · rw [List.mem_flatMap] at hd
    obtain ⟨o, _, hdo⟩ := hd
    rw [List.mem_map] at hdo
    obtain ⟨p, _, rfl⟩ := hdo
    simp
  · simp at hd

theorem drawTileAtlasLine_target (env : LCDEnv) (s : LCDState) :
    ∀ d ∈ drawTileAtlasLine env s, d.target ≠ RenderTarget.Main := by
  intro d hd
  simp only [drawTileAtlasLine] at hd
  split at hd
  · rw [List.mem_flatMap] at hd
    obtain ⟨o, _, hdo⟩ := hd
    rw [List.mem_map] at hdo
    obtain ⟨p, _, rfl⟩ := hdo
    simp
  · simp at hd

theorem drawLine_no_ff (env : LCDEnv) (s : LCDState) (hwy : 143 < s.wy) :
    ∀ d ∈ drawLine env s, d.target = RenderTarget.Main → d.z ≠ 0xFF := by
  intro d hd htgt
  simp only [drawLine, List.mem_append] at hd
  rcases hd with (hd | hd) | hd
  · split at hd
    · simp only [drawWindowLine_nil env s hwy, List.append_nil, List.mem_append] at hd
      rcases hd with hd | hd
      · exact drawBackgroundLine_z env s d hd
      · exact drawObjLine_z env s d hd
    · simp at hd
  · split at hd
    · exact absurd htgt (drawObjAtlasLine_target env s d hd)
    · simp at hd
  · split at hd
    · exact absurd htgt (drawTileAtlasLine_target env s d hd)
    · simp at hd

theorem lcdTickDispatch_draws (env : LCDEnv) (s : LCDState) (ints : List Interrupt) :
    (lcdTickDispatch env s ints).draws = [] ∨
    (lcdTickDispatch env s ints).draws = drawLine env s := by
  cases hm : s.mode <;> simp only [lcdTickDispatch, hm] <;>
    first
      | (split <;> simp)
      | simp

/-- C10: if WY > 143 then a PPU tick emits no Main-target draw at depth 0xFF
(no window pixels), whatever the other window conditions are. -/
theorem wy_gt_143_no_window_draws (env : LCDEnv) (s : LCDState) (ds : Bool)
    (hwy : 143 < s.wy) :
    ∀ d ∈ (lcdTick env s ds).draws, d.target = RenderTarget.Main → d.z ≠ 0xFF := by
  intro d hd htgt
  simp only [lcdTick] at hd
  split at hd
  · simp at hd
  · rcases lcdTickDispatch_draws env _ _ with h | h
    · rw [h] at hd
      simp at hd
    · rw [h] at hd
      exact drawLine_no_ff env _ (by exact hwy) d hd htgt

/-- A concrete collaborator environment for witnesses: blank VRAM lines,
black palettes, no intersecting objects, only the Main target enabled. -/
def lcdEnvW : LCDEnv :=
  { vramBackgroundLineColors := fun _ =>
      List.replicate 160 { colorIndex := 0, paletteIndex := 0, foreground := false }
    vramWindowLineColors := fun _ =>
      List.replicate 160 { colorIndex := 0, paletteIndex := 0, foreground := false }
    vramObjectLineColors := fun _ =>
      List.replicate 8 { colorIndex := 0, paletteIndex := 0, foreground := false }
    vramTileAtlasLineColors := fun _ => List.replicate 8 0
    cramMonochromeBackgroundColor := fun _ => 0
    cramBackgroundColor := fun _ => 0
    cramMonochromeObjectColor := fun _ => 0
    cramObjectColor := fun _ => 0
    oamGetObjectReferenceIfIntersects := fun _ _ _ => none
    oamGetObject := fun _ _ => { lcdY := 0, lcdX := 0, tileIndex := 0, attributes := 0 }
    rendererTargetEnabled := fun t => decide (t = RenderTarget.Main) }

/-- Witness for C2 at the freshly constructed LCD controller. -/
theorem stat_interrupt_rising_edge_witness :
    lcdcLcdEnabled LCDState.new.lcdc = true ∧
    (((Interrupt.Stat ∈ (lcdTick lcdEnvW LCDState.new false).interrupts)
      ↔ ((lcdTick lcdEnvW LCDState.new false).state.interruptLine = true ∧
          LCDState.new.interruptLine = false)) ∧
    (getBit LCDState.new.stat 3 = true → getBit LCDState.new.stat 5 = true →
      LCDState.new.interruptLine = true →
      ((lcdTick lcdEnvW LCDState.new false).state.mode = LCDMode.HBlank ∨
        (lcdTick lcdEnvW LCDState.new false).state.mode = LCDMode.Mode2) →
      (Interrupt.Stat ∉ (lcdTick lcdEnvW LCDState.new false).interrupts ∧
        (lcdTick lcdEnvW LCDState.new false).state.interruptLine = true))) :=
  ⟨by decide, stat_interrupt_rising_edge lcdEnvW LCDState.new false (by decide)⟩

/-- Witness for C10 at WY = 150 on the fresh controller. -/
theorem wy_gt_143_no_window_draws_witness :
    143 < ({ LCDState.new with wy := 150 } : LCDState).wy ∧
    (∀ d ∈ (lcdTick lcdEnvW { LCDState.new with wy := 150 } false).draws,
      d.target = RenderTarget.Main → d.z ≠ 0xFF) :=
  ⟨by decide,
    wy_gt_143_no_window_draws lcdEnvW { LCDState.new with wy := 150 } false (by decide)⟩


end RustBoy
